import Mathlib

/-!
# Verification of the MusicService operator core

A shallow embedding, in Lean 4, of the reconciliation core of the
`kind-MusicStreaming` Kubernetes operator (Go), and proofs of the frozen
claims about it.  Every definition is translated from the Go source:

* `internal/controller/musicservice_controller.go` — the reconcile entry
  point and the database-topology dispatch;
* `internal/status/manager.go` — `setCondition`, the phase state machine,
  replica-history tracking and storage warnings;
* `internal/reconciler/app.go` / `storage.go` / `database.go` — the
  StatefulSet diff, the PVC resize/recreate policy and the replication
  credential manager;
* `internal/builder/resource_builder.go` — the desired-state builder.

Quantities (`k8s.io/apimachinery` `resource.Quantity`) are modelled as
canonical integers, with a small executable parser standing in for the
external library's `ParseQuantity`/`MustParse`; timestamps are integers
with `0` meaning the zero time; the random bytes drawn by `crypto/rand`
are an explicit input parameter.  Fallible Go code (library panics on
malformed quantities) is modelled with `Except`/`Option`; interactions
with the state store (Get/Create/Update/Delete) are modelled by explicit
inputs (what `Get` observed) and outputs (the list of writes the pass
performs).
-/

namespace MusicOp

/-- One `metav1.Condition` as used by the status manager: type, status
(`"True"`/`"False"`/`"Unknown"`), reason, message, observed generation and
last transition time (an integer clock; `0` is the Go zero time). -/
structure Condition where
  type : String
  status : String
  observedGeneration : Int
  lastTransitionTime : Int
  reason : String
  message : String
deriving DecidableEq, Repr

/-- The first step of Go `setCondition`: ensure `LastTransitionTime` is
set, defaulting it to `now` when it is the zero time. -/
def conditionWithDefaultTime (now : Int) (c : Condition) : Condition :=
  if c.lastTransitionTime = 0 then { c with lastTransitionTime := now } else c

/-- The search-and-replace loop of Go `setCondition`
(`internal/status/manager.go`): the first stored condition of the same
type is replaced in place — keeping its `lastTransitionTime` when the
status is unchanged, stamping `now` when it changed — and a condition of
a new type is appended at the end. -/
def setConditionGo (now : Int) : List Condition → Condition → List Condition
  | [], c => [c]
  | old :: rest, c =>
    if old.type = c.type then
      { c with lastTransitionTime :=
          if old.status = c.status then old.lastTransitionTime else now } :: rest
    else
      old :: setConditionGo now rest c

/-- Go `setCondition` (`internal/status/manager.go`, lines 46–70): default
the transition time, then update-in-place-or-append. -/
def setCondition (now : Int) (conds : List Condition) (c : Condition) : List Condition :=
  setConditionGo now conds (conditionWithDefaultTime now c)

theorem conditionWithDefaultTime_type (now : Int) (c : Condition) :
    (conditionWithDefaultTime now c).type = c.type := by
  unfold conditionWithDefaultTime; split <;> rfl

theorem conditionWithDefaultTime_status (now : Int) (c : Condition) :
    (conditionWithDefaultTime now c).status = c.status := by
  unfold conditionWithDefaultTime; split <;> rfl

theorem conditionWithDefaultTime_reason (now : Int) (c : Condition) :
    (conditionWithDefaultTime now c).reason = c.reason := by
  unfold conditionWithDefaultTime; split <;> rfl

theorem conditionWithDefaultTime_message (now : Int) (c : Condition) :
    (conditionWithDefaultTime now c).message = c.message := by
  unfold conditionWithDefaultTime; split <;> rfl

/-- When no stored condition has the new condition's type, the Go loop
appends it at the end. -/
theorem setConditionGo_not_mem (now : Int) (conds : List Condition) (c : Condition)
    (h : c.type ∉ conds.map Condition.type) :
    setConditionGo now conds c = conds ++ [c] := by
  induction conds with
  | nil => rfl
  | cons old rest ih =>
    simp only [List.map_cons, List.mem_cons, not_or] at h
    rw [setConditionGo, if_neg (fun he => h.1 he.symm), ih h.2, List.cons_append]

/-- When a stored condition has the new condition's type and types are
unique, the Go loop is an in-place map: the matching entry takes the new
condition's fields and keeps (resp. re-stamps) its transition time
according to whether the status changed; every other entry is untouched. -/
theorem setConditionGo_mem (now : Int) (conds : List Condition) (c : Condition)
    (hnd : (conds.map Condition.type).Nodup)
    (h : c.type ∈ conds.map Condition.type) :
    setConditionGo now conds c = conds.map (fun old =>
      if old.type = c.type then
        { c with lastTransitionTime :=
            if old.status = c.status then old.lastTransitionTime else now }
      else old) := by
  induction conds with
  | nil => simp at h
  | cons old rest ih =>
    rw [List.map_cons, List.nodup_cons] at hnd
    by_cases hty : old.type = c.type
    · rw [setConditionGo, if_pos hty, List.map_cons, if_pos hty]
      have hrest : rest.map (fun o =>
          if o.type = c.type then
            { c with lastTransitionTime :=
                if o.status = c.status then o.lastTransitionTime else now }
          else o) = rest := by
        conv_rhs => rw [← List.map_id rest]
        apply List.map_congr_left
        intro x hx
        have hxc : ¬ x.type = c.type := by
          intro hc
          exact hnd.1 (by rw [hty, ← hc]; exact List.mem_map_of_mem Condition.type hx)
        simp [hxc]
      rw [hrest]
    · rw [List.map_cons] at h
      rcases List.mem_cons.mp h with he | hm
      · exact absurd he.symm hty
      · rw [setConditionGo, if_neg hty, ih hnd.2 hm, List.map_cons, if_neg hty]

/-- After `setCondition`, some entry carries the written condition's type,
status, reason and message (its transition time may differ). -/
theorem mem_setCondition_self (now : Int) (conds : List Condition) (c : Condition) :
    ∃ d ∈ setCondition now conds c,
      d.type = c.type ∧ d.status = c.status ∧ d.reason = c.reason ∧ d.message = c.message := by
  unfold setCondition
  generalize hc : conditionWithDefaultTime now c = c'
  have h4 : c'.type = c.type ∧ c'.status = c.status ∧ c'.reason = c.reason ∧
      c'.message = c.message := by
    rw [← hc]
    exact ⟨conditionWithDefaultTime_type now c, conditionWithDefaultTime_status now c,
      conditionWithDefaultTime_reason now c, conditionWithDefaultTime_message now c⟩
  clear hc
  induction conds with
  | nil => exact ⟨c', by simp [setConditionGo], h4.1, h4.2.1, h4.2.2.1, h4.2.2.2⟩
  | cons old rest ih =>
    rw [setConditionGo]
    by_cases hty : old.type = c'.type
    · refine ⟨_, by rw [if_pos hty]; exact List.mem_cons_self _ _, ?_⟩
      exact ⟨h4.1, h4.2.1, h4.2.2.1, h4.2.2.2⟩
    · obtain ⟨d, hd, hprops⟩ := ih
      exact ⟨d, by rw [if_neg hty]; exact List.mem_cons_of_mem _ hd, hprops⟩

/-- `setCondition` never removes or edits an entry of a different type. -/
theorem mem_setCondition_of_ne (now : Int) (conds : List Condition) (c d : Condition)
    (hd : d ∈ conds) (hne : d.type ≠ c.type) :
    d ∈ setCondition now conds c := by
  unfold setCondition
  have hne' : d.type ≠ (conditionWithDefaultTime now c).type := by
    rw [conditionWithDefaultTime_type]; exact hne
  generalize conditionWithDefaultTime now c = c' at *
  induction conds with
  | nil => simp at hd
  | cons old rest ih =>
    rw [setConditionGo]
    rcases List.mem_cons.mp hd with he | hm
    · subst he
      rw [if_neg hne']
      exact List.mem_cons_self _ _
    · by_cases hty : old.type = c'.type
      · rw [if_pos hty]; exact List.mem_cons_of_mem _ hm
      · rw [if_neg hty]; exact List.mem_cons_of_mem _ (ih hm)

/-- The type list after `setCondition`: unchanged when the type already
occurs (given unique types), extended by the new type otherwise. -/
theorem setCondition_map_type (now : Int) (conds : List Condition) (c : Condition)
    (hnd : (conds.map Condition.type).Nodup) :
    (setCondition now conds c).map Condition.type =
      (if c.type ∈ conds.map Condition.type then conds.map Condition.type
       else conds.map Condition.type ++ [c.type]) := by
  unfold setCondition
  by_cases h : c.type ∈ conds.map Condition.type
  · rw [if_pos h]
    rw [setConditionGo_mem now conds _ hnd (by rwa [conditionWithDefaultTime_type]),
      List.map_map]
    apply List.map_congr_left
    intro x _
    simp only [Function.comp_apply]
    split
    · next hxe => exact hxe.symm
    · rfl
  · rw [if_neg h]
    rw [setConditionGo_not_mem now conds _ (by rwa [conditionWithDefaultTime_type]),
      List.map_append, List.map_singleton, conditionWithDefaultTime_type]

/-- **C5.** `setCondition` keeps condition types unique and in first-insert
order: an existing type is replaced in place (every other entry untouched),
a new type is appended at the end; the replacing entry keeps the stored
`lastTransitionTime` exactly when the status value is unchanged — a reason-
or message-only change never re-stamps it — and takes the current time
exactly when the status value changes. -/
theorem C5_setCondition_spec (now : Int) (conds : List Condition) (c : Condition)
    (hnd : (conds.map Condition.type).Nodup) :
    ((setCondition now conds c).map Condition.type).Nodup
    ∧ (c.type ∉ conds.map Condition.type →
        setCondition now conds c = conds ++ [conditionWithDefaultTime now c])
    ∧ (c.type ∈ conds.map Condition.type →
        setCondition now conds c = conds.map (fun old =>
          if old.type = c.type then
            { type := c.type, status := c.status,
              observedGeneration := c.observedGeneration,
              lastTransitionTime :=
                if old.status = c.status then old.lastTransitionTime else now,
              reason := c.reason, message := c.message }
          else old)) := by
  refine ⟨?_, ?_, ?_⟩
  · rw [setCondition_map_type now conds c hnd]
    split
    · exact hnd
    · next h =>
      refine hnd.append (List.nodup_singleton _) ?_
      intro x hx hxs
      rw [List.mem_singleton] at hxs
      exact h (hxs ▸ hx)
  · intro h
    unfold setCondition
    exact setConditionGo_not_mem now conds _ (by rwa [conditionWithDefaultTime_type])
  · intro h
    unfold setCondition
    rw [setConditionGo_mem now conds _ hnd (by rwa [conditionWithDefaultTime_type])]
    apply List.map_congr_left
    intro old _
    by_cases hty : old.type = c.type
    · rw [if_pos (by rwa [conditionWithDefaultTime_type]), if_pos hty]
      unfold conditionWithDefaultTime
      split <;> rfl
    · rw [if_neg (by rwa [conditionWithDefaultTime_type]), if_neg hty]

/-- Witness for C5 at a concrete input: two stored conditions with distinct
types, updating the first with the same status (time preserved, reason
replaced) — the characterization applies and evaluates as claimed. -/
theorem C5_setCondition_spec_witness :
    (([⟨"Available", "True", 1, 5, "PodsReady", "ok"⟩,
       ⟨"Reconciled", "True", 1, 7, "ReconcileSuccess", "ok"⟩] :
        List Condition).map Condition.type).Nodup
    ∧ setCondition 9
        [⟨"Available", "True", 1, 5, "PodsReady", "ok"⟩,
         ⟨"Reconciled", "True", 1, 7, "ReconcileSuccess", "ok"⟩]
        ⟨"Available", "True", 2, 0, "StillReady", "new msg"⟩ =
        [⟨"Available", "True", 2, 5, "StillReady", "new msg"⟩,
         ⟨"Reconciled", "True", 1, 7, "ReconcileSuccess", "ok"⟩] := by
  constructor
  · decide
  · have h := (C5_setCondition_spec 9
      [⟨"Available", "True", 1, 5, "PodsReady", "ok"⟩,
       ⟨"Reconciled", "True", 1, 7, "ReconcileSuccess", "ok"⟩]
      ⟨"Available", "True", 2, 0, "StillReady", "new msg"⟩ (by decide)).2.2 (by decide)
    rw [h]
    decide

/-! ## The data model (`api/v1/musicservice_types.go`) -/

/-- `StreamingSpec`. -/
structure StreamingSpec where
  bitrate : String
  maxConnections : Int
deriving DecidableEq, Repr

/-- `StorageSpec`: a quantity string and an update policy
(`""`, `"Resize"` or `"Recreate"`). -/
structure StorageSpec where
  size : String
  updatePolicy : String
deriving DecidableEq, Repr

/-- `AutoscalingSpec`. -/
structure AutoscalingSpec where
  minReplicas : Int
  maxReplicas : Int
  targetCPUUtilizationPercentage : Int
  targetMemoryUtilizationPercentage : Option Int
deriving DecidableEq, Repr

/-- `DatabaseReplicationSpec`: both flags are optional pointers. -/
structure DatabaseReplicationSpec where
  enabled : Option Bool
  gtid : Option Bool
deriving DecidableEq, Repr

/-- `DatabaseHighAvailabilitySpec`. Modelled from the spec: the API type's
declaration is not among the sources — only its use in the controller
(`ms.Spec.Database.HighAvailability.Enabled`) and in the builder tests
(`musicv1.DatabaseHighAvailabilitySpec{Enabled: true}`); spec §3 gives it
the single `enabled` flag those uses show. -/
structure DatabaseHighAvailabilitySpec where
  enabled : Bool
deriving DecidableEq, Repr

/-- `DatabaseSpec`. -/
structure DatabaseSpec where
  enabled : Bool
  replicas : Int
  image : String
  storage : Option StorageSpec
  rootPassword : String
  replication : Option DatabaseReplicationSpec
  highAvailability : Option DatabaseHighAvailabilitySpec
  autoscaling : Option AutoscalingSpec
deriving DecidableEq, Repr

/-- `corev1.ResourceRequirements`, as an association of resource names to
canonical quantities (only compared for equality by the operator). -/
structure ResourceRequirements where
  limits : List (String × Int)
  requests : List (String × Int)
deriving DecidableEq, Repr

/-- `MusicServiceSpec`. -/
structure MusicServiceSpec where
  replicas : Int
  image : String
  port : Int
  storage : StorageSpec
  streaming : StreamingSpec
  resources : Option ResourceRequirements
  autoscaling : Option AutoscalingSpec
  database : Option DatabaseSpec
deriving DecidableEq, Repr

/-- `DatabaseStatus`. Times are integers, `none` = never seen. -/
structure DatabaseStatus where
  phase : String
  masterReady : Bool
  replicasReady : Int
  replicaEverCreated : Bool
  replicaLastSeen : Option Int
  replicaDeletionDetected : Bool
  replicationReady : Bool
deriving DecidableEq, Repr

/-- `MusicServiceStatus`. -/
structure MusicServiceStatus where
  observedGeneration : Int
  desiredReplicas : Int
  readyReplicas : Int
  phase : String
  lastReconcileTime : Option Int
  lastError : String
  conditions : List Condition
  database : Option DatabaseStatus
deriving DecidableEq, Repr

/-- A `MusicService` object (metadata + spec; status is threaded
separately through the status-manager functions). -/
structure MusicService where
  name : String
  ns : String
  generation : Int
  spec : MusicServiceSpec
deriving DecidableEq, Repr

/-! ## Workload descriptors (the fields the operator builds and diffs) -/

/-- A readiness/liveness probe: exec command and timings. -/
structure Probe where
  command : List String
  initialDelaySeconds : Int
  periodSeconds : Int
deriving DecidableEq, Repr

/-- The `ValueFrom` of an env var: a secret key reference or a downward-API
field reference. -/
inductive EnvVarSource
  | secretKeyRef (secretName key : String)
  | fieldRef (fieldPath : String)
deriving DecidableEq, Repr

/-- `corev1.EnvVar`. -/
structure EnvVar where
  name : String
  value : String
  valueFrom : Option EnvVarSource
deriving DecidableEq, Repr

/-- `corev1.ContainerPort`. -/
structure ContainerPort where
  name : String
  containerPort : Int
  protocol : String
deriving DecidableEq, Repr

/-- `corev1.VolumeMount`. -/
structure VolumeMount where
  name : String
  mountPath : String
deriving DecidableEq, Repr

/-- A pod volume (the operator only uses emptyDir volumes). -/
structure Volume where
  name : String
  emptyDir : Bool
deriving DecidableEq, Repr

/-- `corev1.Container`, restricted to the fields this operator sets and
diffs. -/
structure Container where
  name : String
  image : String
  command : List String
  resources : ResourceRequirements
  env : List EnvVar
  ports : List ContainerPort
  readinessProbe : Option Probe
  livenessProbe : Option Probe
  volumeMounts : List VolumeMount
deriving DecidableEq, Repr

/-- A volume claim template: name, access modes, and the storage request
(`none` when the requests map has no storage key). -/
structure PVCTemplate where
  name : String
  accessModes : List String
  requestStorage : Option Int
deriving DecidableEq, Repr

/-- `corev1.PodSpec`, restricted to the diffed fields. -/
structure PodSpec where
  initContainers : List Container
  containers : List Container
  volumes : List Volume
deriving DecidableEq, Repr

/-- `appsv1.StatefulSetSpec`, restricted to the fields the operator sets. -/
structure StatefulSetSpec where
  replicas : Int
  serviceName : String
  selector : List (String × String)
  templateLabels : List (String × String)
  template : PodSpec
  volumeClaimTemplates : List PVCTemplate
deriving DecidableEq, Repr

/-- A StatefulSet: metadata, spec and the observed ready-replica count. -/
structure StatefulSet where
  name : String
  ns : String
  labels : List (String × String)
  ownedByParent : Bool
  spec : StatefulSetSpec
  readyReplicas : Int
deriving DecidableEq, Repr

/-- A live `PersistentVolumeClaim`: its name, its storage request (`none`
when the requests map has no storage key) and its binding phase. -/
structure PersistentVolumeClaim where
  name : String
  requestStorage : Option Int
  phase : String
deriving DecidableEq, Repr

/-! ## Quantities (`k8s.io/apimachinery` `resource.Quantity`) -/

/-- Decimal digit-string value. -/
def digitsVal (ds : List Char) : Nat :=
  ds.foldl (fun acc d => acc * 10 + (d.toNat - 48)) 0

/-- The binary and decimal suffixes of a quantity string. -/
def suffixMultiplier (s : String) : Option Int :=
  if s = "" then some 1
  else if s = "k" then some 1000
  else if s = "M" then some (1000 ^ 2)
  else if s = "G" then some (1000 ^ 3)
  else if s = "T" then some (1000 ^ 4)
  else if s = "Ki" then some 1024
  else if s = "Mi" then some (1024 ^ 2)
  else if s = "Gi" then some (1024 ^ 3)
  else if s = "Ti" then some (1024 ^ 4)
  else none

/-- Modelled from the external `k8s.io/apimachinery` quantity parser,
restricted to the integer-with-suffix forms this operator manipulates: a
nonempty digit run followed by an optional suffix parses to a canonical
integer; everything else is malformed.  Quantities are compared through
their canonical value, exactly as `Quantity.Cmp` does. -/
def parseQuantity (s : String) : Option Int :=
  let cs := s.toList
  let ds := cs.takeWhile Char.isDigit
  let rest := cs.dropWhile Char.isDigit
  if ds.isEmpty then none
  else
    match suffixMultiplier (String.mk rest) with
    | some m => some ((digitsVal ds : Int) * m)
    | none => none

/-- `resource.MustParse`: the library panic on a malformed quantity string
is the `Except.error` outcome, carrying the offending string. -/
def mustParse (s : String) : Except String Int :=
  match parseQuantity s with
  | some q => Except.ok q
  | none => Except.error s

/-! ## Controller helpers and the database-topology dispatch
(`internal/controller/musicservice_controller.go`) -/

/-- `databaseEnabled`: the database tier exists and is enabled. -/
def databaseEnabled (ms : MusicService) : Bool :=
  match ms.spec.database with
  | some db => db.enabled
  | none => false

/-- `databaseHAEnabled` (controller, lines 222–226): the database spec, its
HA sub-spec and the HA flag are all present/true. -/
def databaseHAEnabled (ms : MusicService) : Bool :=
  match ms.spec.database with
  | some db =>
    match db.highAvailability with
    | some ha => ha.enabled
    | none => false
  | none => false

/-- The database reconcile steps of one pass. -/
inductive DBStep
  | galera
  | galeraServices
  | master
  | replicas
  | services
  | autoscaler
deriving DecidableEq, Repr

/-- The database section of `Reconcile` (controller, lines 132–164): the
database reconcile steps the pass runs, in source order, when no step
fails.  With HA enabled only the Galera reconcilers run; otherwise only
the primary/replica reconcilers run; the replica autoscaler step closes
both branches. -/
def databaseReconcileSteps (ms : MusicService) : List DBStep :=
  if databaseEnabled ms then
    (if databaseHAEnabled ms then
      [DBStep.galera, DBStep.galeraServices]
    else
      [DBStep.master, DBStep.replicas, DBStep.services]) ++ [DBStep.autoscaler]
  else []

/-- The (kind, name) keys of the resources each database step creates or
updates.  For `master`, `replicas`, `services` and `autoscaler` this is
read off `internal/reconciler/database.go` (the master StatefulSet; the
replication Secret and replica StatefulSet; the master and read Services;
the replica HPA).  For the two Galera steps the reconciler body is not
among the sources — modelled from the spec (§4.4) and the builder tests:
`BuildDatabaseGaleraStatefulSet` yields the `-db-galera` StatefulSet,
`BuildDatabaseGaleraService` the `-db-galera` discovery Service and
`BuildDatabaseGaleraPrimaryService` the HA write Service (which reuses the
`-db-master` Service name); the Galera path touches no `-db-master` or
`-db-replica` StatefulSet. -/
def dbStepTargets (ms : MusicService) : DBStep → List (String × String)
  | DBStep.galera => [("StatefulSet", ms.name ++ "-db-galera")]
  | DBStep.galeraServices =>
    [("Service", ms.name ++ "-db-galera"), ("Service", ms.name ++ "-db-master")]
  | DBStep.master => [("StatefulSet", ms.name ++ "-db-master")]
  | DBStep.replicas =>
    [("Secret", ms.name ++ "-db-replication"), ("StatefulSet", ms.name ++ "-db-replica")]
  | DBStep.services =>
    [("Service", ms.name ++ "-db-master"), ("Service", ms.name ++ "-db-read")]
  | DBStep.autoscaler =>
    [("HorizontalPodAutoscaler", ms.name ++ "-db-replica-autoscaler")]

/-- Appending distinct suffixes to the same string gives distinct
strings. -/
theorem append_ne_append_right (s : String) {t u : String} (h : t ≠ u) :
    s ++ t ≠ s ++ u := by
  intro he
  apply h
  have hd := congrArg String.data he
  simp only [String.data_append] at hd
  exact String.ext (List.append_cancel_left hd)

/-! ## The storage policy engine (`internal/reconciler/storage.go`) -/

/-- `storageUpdatePolicy`: the empty policy defaults to `Resize`. -/
def storageUpdatePolicy (storage : StorageSpec) : String :=
  if storage.updatePolicy = "" then "Resize" else storage.updatePolicy

/-- `storageRequestFromStatefulSet`: the storage request of the first
volume claim template, `none` when there is no template or no storage
key. -/
def storageRequestFromStatefulSet (sts : StatefulSet) : Option Int :=
  match sts.spec.volumeClaimTemplates with
  | [] => none
  | t :: _ => t.requestStorage

/-- `storageSizeChanged`: both sizes present and `Cmp ≠ 0`. -/
def storageSizeChanged (current desired : StatefulSet) : Bool :=
  match storageRequestFromStatefulSet current, storageRequestFromStatefulSet desired with
  | some c, some d => c != d
  | _, _ => false

/-- `resizePVCs`: for each claim of the tier (the caller lists them by
prefix), skip it when it has no storage request or its request is already
`≥` the desired size, otherwise update its request in place to the desired
size.  The returned list is the complete set of writes (claim name, new
size) the function performs — it never deletes. -/
def resizePVCs (desired : StatefulSet) (pvcs : List PersistentVolumeClaim) :
    List (String × Int) :=
  match storageRequestFromStatefulSet desired with
  | none => []
  | some dSize =>
    pvcs.filterMap fun pvc =>
      match pvc.requestStorage with
      | none => none
      | some cur => if cur ≥ dSize then none else some (pvc.name, dSize)

/-- The shrink test opening `updateStorageWarnings`
(`internal/status/manager.go`, lines 204–218): the declared size is
nonempty, parses, and is strictly below the request in the live
StatefulSet's claim template. -/
def shrinkDetected (sts : StatefulSet) (desiredSize : String) : Bool :=
  match storageRequestFromStatefulSet sts with
  | some currentSize =>
    if desiredSize ≠ "" then
      match parseQuantity desiredSize with
      | some desired => decide (desired < currentSize)
      | none => false
    else false
  | none => false

/-- `updateStorageWarnings` (`internal/status/manager.go`, lines 203–243):
on a detected shrink set the tier's warning condition
`False/ShrinkNotSupported` and return; otherwise `False/PVCNotBound` when
a tier claim is not bound, else `True/StorageHealthy`. -/
def updateStorageWarnings (now gen : Int) (conds : List Condition)
    (sts : StatefulSet) (pvcs : List PersistentVolumeClaim)
    (desiredSize conditionType : String) : List Condition :=
  if shrinkDetected sts desiredSize then
    setCondition now conds
      { type := conditionType, status := "False", observedGeneration := gen,
        lastTransitionTime := 0, reason := "ShrinkNotSupported",
        message := "Requested storage size is smaller than current PVC size" }
  else if pvcs.any (fun pvc => pvc.phase != "Bound") then
    setCondition now conds
      { type := conditionType, status := "False", observedGeneration := gen,
        lastTransitionTime := 0, reason := "PVCNotBound",
        message := "One or more PVCs are not bound yet" }
  else
    setCondition now conds
      { type := conditionType, status := "True", observedGeneration := gen,
        lastTransitionTime := 0, reason := "StorageHealthy",
        message := "Storage requests are within expected bounds" }

/-! ## The StatefulSet diff (`internal/reconciler/app.go`) -/

/-- The per-container comparison inside `statefulSetNeedsUpdate`: image,
resources, env, volume mounts, ports and both probes. -/
def containerNeedsUpdate (cur des : Container) : Bool :=
  cur.image != des.image
  || cur.resources != des.resources
  || cur.env != des.env
  || cur.volumeMounts != des.volumeMounts
  || cur.ports != des.ports
  || cur.readinessProbe != des.readinessProbe
  || cur.livenessProbe != des.livenessProbe

/-- `statefulSetNeedsUpdate` (`internal/reconciler/app.go`, lines 146–190):
the field-level diff.  Replica count is the first comparison,
unconditionally — there is no autoscaler exemption. -/
def statefulSetNeedsUpdate (current desired : StatefulSet) : Bool :=
  current.spec.replicas != desired.spec.replicas
  || current.spec.template.initContainers != desired.spec.template.initContainers
  || current.spec.template.volumes != desired.spec.template.volumes
  || current.spec.template.containers.length != desired.spec.template.containers.length
  || (current.spec.template.containers.zip desired.spec.template.containers).any
      (fun p => containerNeedsUpdate p.1 p.2)

/-! ## The desired-state builder (`internal/builder/resource_builder.go`) -/

/-- `getLabels`: the common label set, per component. -/
def getLabels (ms : MusicService) (component : String) : List (String × String) :=
  [("app", ms.name), ("component", component),
   ("app.kubernetes.io/name", "music-service"),
   ("app.kubernetes.io/instance", ms.name),
   ("app.kubernetes.io/managed-by", "music-operator")]

/-- `replicationSecretName`. -/
def replicationSecretName (ms : MusicService) : String :=
  ms.name ++ "-db-replication"

/-- `BuildAppStatefulSet` (builder, lines 82–167).  The only failure point
is `resource.MustParse(ms.Spec.Storage.Size)`. -/
def BuildAppStatefulSet (ms : MusicService) : Except String StatefulSet := do
  let storageSize ← mustParse ms.spec.storage.size
  let resources := ms.spec.resources.getD { limits := [], requests := [] }
  let podLabels := [("app", ms.name), ("component", "music-service")]
  pure {
    name := ms.name
    ns := ms.ns
    labels := getLabels ms "app"
    ownedByParent := true
    readyReplicas := 0
    spec := {
      replicas := ms.spec.replicas
      serviceName := ms.name
      selector := podLabels
      templateLabels := podLabels
      template := {
        initContainers := []
        containers := [{
          name := "music-service"
          image := ms.spec.image
          command := []
          resources := resources
          env := [⟨"STREAMING_BITRATE", ms.spec.streaming.bitrate, none⟩,
                  ⟨"MAX_CONNECTIONS", toString ms.spec.streaming.maxConnections, none⟩]
          ports := [⟨"http", 80, "TCP"⟩]
          readinessProbe := none
          livenessProbe := none
          volumeMounts := [⟨"music-data", "/data"⟩] }]
        volumes := [] }
      volumeClaimTemplates := [⟨"music-data", ["ReadWriteOnce"], some storageSize⟩] } }

/-- The internal `databaseConfig` record of the builder. -/
structure databaseConfig where
  image : String
  storageSize : Int
  rootPassword : String
  replicas : Int
  masterHost : String
  replicationEnabled : Bool
  replicationGTID : Bool
  replicationSecret : String
deriving DecidableEq, Repr

/-- `buildDatabaseConfig` (builder, lines 627–663): defaults
(`mariadb:10.11`, `10Gi`, `rootpass`, replication and GTID on), overridden
field by field from `Spec.Database` when present; the only failure point is
`resource.MustParse` of the database storage size. -/
def buildDatabaseConfig (ms : MusicService) : Except String databaseConfig := do
  let base ← mustParse "10Gi"
  let config : databaseConfig := {
    image := "mariadb:10.11"
    storageSize := base
    rootPassword := "rootpass"
    replicas := 0
    masterHost := ms.name ++ "-db-master"
    replicationEnabled := true
    replicationGTID := true
    replicationSecret := replicationSecretName ms }
  match ms.spec.database with
  | none => pure config
  | some db => do
    let storageSize ←
      match db.storage with
      | none => pure config.storageSize
      | some st => mustParse st.size
    pure { config with
      replicas := db.replicas
      image := if db.image ≠ "" then db.image else config.image
      storageSize := storageSize
      rootPassword := if db.rootPassword ≠ "" then db.rootPassword else config.rootPassword
      replicationEnabled :=
        match db.replication with
        | some r => r.enabled.getD true
        | none => true
      replicationGTID :=
        match db.replication with
        | some r => r.gtid.getD true
        | none => true }

/-- The value `buildDatabaseConfig` resolves to when the database section
is present and its storage size resolved to `sz` (spelled out for the
characterization lemmas). -/
def databaseConfigResolved (ms : MusicService) (db : DatabaseSpec) (sz : Int) :
    databaseConfig :=
  { image := if db.image ≠ "" then db.image else "mariadb:10.11"
    storageSize := sz
    rootPassword := if db.rootPassword ≠ "" then db.rootPassword else "rootpass"
    replicas := db.replicas
    masterHost := ms.name ++ "-db-master"
    replicationEnabled :=
      match db.replication with
      | some r => r.enabled.getD true
      | none => true
    replicationGTID :=
      match db.replication with
      | some r => r.gtid.getD true
      | none => true
    replicationSecret := replicationSecretName ms }

/-- `buildMasterConfigScript`: writes the master's server-id/binlog/GTID
configuration.  The shell text is abbreviated to its effect; no claim
inspects it. -/
def buildMasterConfigScript : String :=
  "write db-config: server-id=1 log_bin binlog_format=ROW gtid_strict_mode log_slave_updates"

/-- `buildReplicaConfigScript`: writes a per-ordinal server-id plus
read-only/skip-slave-start configuration.  Shell text abbreviated. -/
def buildReplicaConfigScript : String :=
  "write db-config: server-id=200+ordinal log_bin gtid_strict_mode read_only skip_slave_start"

/-- `buildReplicaSetupScript`: waits for local and master readiness,
ensures the replication user on the master, and points the replica's
stream at `masterHost` with GTID coordinates.  Shell text abbreviated to
its command outline; the model keeps the source's exact dependence on
`masterHost`. -/
def buildReplicaSetupScript (masterHost : String) : String :=
  "wait-local; wait-master " ++ masterHost
  ++ "; ensure-replication-user; change-master-to " ++ masterHost
  ++ " gtid=slave_pos; start-slave; sleep-infinity"

/-- The shared mariadb readiness probe of both database StatefulSets. -/
def mariadbPingProbe (initialDelay period : Int) : Probe :=
  ⟨["/bin/sh", "-c", "mysqladmin ping -uroot -pMYSQL_ROOT_PASSWORD"], initialDelay, period⟩

/-- The `init-db-config` init container of the master pod (builder, lines
200–212). -/
def masterInitContainer (config : databaseConfig) : Container :=
  { name := "init-db-config"
    image := config.image
    command := ["/bin/sh", "-c", buildMasterConfigScript]
    resources := { limits := [], requests := [] }
    env := []
    ports := []
    readinessProbe := none
    livenessProbe := none
    volumeMounts := [⟨"db-config", "/db-config"⟩] }

/-- The master's mariadb container (builder, lines 213–263). -/
def masterMariadbContainer (config : databaseConfig) : Container :=
  { name := "mariadb"
    image := config.image
    command := []
    resources := { limits := [], requests := [] }
    env := [⟨"MYSQL_ROOT_PASSWORD", config.rootPassword, none⟩,
            ⟨"MYSQL_DATABASE", "musicdb", none⟩]
    ports := [⟨"mysql", 3306, "TCP"⟩]
    readinessProbe := some (mariadbPingProbe 10 10)
    livenessProbe := some (mariadbPingProbe 30 20)
    volumeMounts := [⟨"db-data", "/var/lib/mysql"⟩, ⟨"db-config", "/etc/mysql/conf.d"⟩] }

/-- `BuildDatabaseMasterStatefulSet` (builder, lines 170–293). -/
def BuildDatabaseMasterStatefulSet (ms : MusicService) : Except String StatefulSet := do
  let config ← buildDatabaseConfig ms
  let podLabels := [("app", ms.name), ("component", "db-master")]
  pure {
    name := ms.name ++ "-db-master"
    ns := ms.ns
    labels := getLabels ms "db-master"
    ownedByParent := true
    readyReplicas := 0
    spec := {
      replicas := 1
      serviceName := ms.name ++ "-db-master"
      selector := podLabels
      templateLabels := podLabels
      template := {
        initContainers := [masterInitContainer config]
        containers := [masterMariadbContainer config]
        volumes := [⟨"db-config", true⟩] }
      volumeClaimTemplates := [⟨"db-data", ["ReadWriteOnce"], some config.storageSize⟩] } }

/-- `buildReplicaSetupContainer` (builder, lines 723–763): empty when
replication is disabled, else the `replication-setup` container, whose
credentials are secret-key references into the replication secret. -/
def buildReplicaSetupContainer (config : databaseConfig) (script : String) : List Container :=
  if ¬ config.replicationEnabled then []
  else [{
    name := "replication-setup"
    image := config.image
    command := ["/bin/sh", "-c", script]
    resources := { limits := [], requests := [] }
    env := [⟨"MYSQL_ROOT_PASSWORD", config.rootPassword, none⟩,
            ⟨"REPLICATION_USER", "",
              some (EnvVarSource.secretKeyRef config.replicationSecret "username")⟩,
            ⟨"REPLICATION_PASSWORD", "",
              some (EnvVarSource.secretKeyRef config.replicationSecret "password")⟩]
    ports := []
    readinessProbe := none
    livenessProbe := none
    volumeMounts := [] }]

/-- The `init-db-config` init container of a replica pod (builder, lines
305–325). -/
def replicaInitContainer (config : databaseConfig) : Container :=
  { name := "init-db-config"
    image := config.image
    command := ["/bin/sh", "-c", buildReplicaConfigScript]
    resources := { limits := [], requests := [] }
    env := [⟨"POD_NAME", "", some (EnvVarSource.fieldRef "metadata.name")⟩]
    ports := []
    readinessProbe := none
    livenessProbe := none
    volumeMounts := [⟨"db-config", "/db-config"⟩] }

/-- The base env of a replica's mariadb container (builder, lines
334–343). -/
def replicaBaseEnv (config : databaseConfig) : List EnvVar :=
  [⟨"MYSQL_ROOT_PASSWORD", config.rootPassword, none⟩,
   ⟨"MYSQL_DATABASE", "musicdb", none⟩]

/-- The replica's mariadb env: the base env, extended with the replication
credentials (secret-key references) exactly when replication is enabled
(builder, lines 355–380). -/
def replicaEnv (config : databaseConfig) : List EnvVar :=
  if config.replicationEnabled then
    replicaBaseEnv config ++
      [⟨"REPLICATION_USER", "",
         some (EnvVarSource.secretKeyRef config.replicationSecret "username")⟩,
       ⟨"REPLICATION_PASSWORD", "",
         some (EnvVarSource.secretKeyRef config.replicationSecret "password")⟩]
  else replicaBaseEnv config

/-- The replica's mariadb container (builder, lines 403–434). -/
def replicaMariadbContainer (config : databaseConfig) : Container :=
  { name := "mariadb"
    image := config.image
    command := []
    resources := { limits := [], requests := [] }
    env := replicaEnv config
    ports := [⟨"mysql", 3306, "TCP"⟩]
    readinessProbe := some (mariadbPingProbe 10 10)
    livenessProbe := some (mariadbPingProbe 30 20)
    volumeMounts := [⟨"db-data", "/var/lib/mysql"⟩, ⟨"db-config", "/etc/mysql/conf.d"⟩] }

/-- `BuildDatabaseReplicaStatefulSet` (builder, lines 296–459): the
replica tier, with replication credentials in the env and the
`replication-setup` container appended exactly when replication is
enabled. -/
def BuildDatabaseReplicaStatefulSet (ms : MusicService) : Except String StatefulSet := do
  let config ← buildDatabaseConfig ms
  let replicationSetupScript := buildReplicaSetupScript config.masterHost
  let podLabels := [("app", ms.name), ("component", "db-replica")]
  pure {
    name := ms.name ++ "-db-replica"
    ns := ms.ns
    labels := getLabels ms "db-replica"
    ownedByParent := true
    readyReplicas := 0
    spec := {
      replicas := config.replicas
      serviceName := ms.name ++ "-db-replica"
      selector := podLabels
      templateLabels := podLabels
      template := {
        initContainers := [replicaInitContainer config]
        containers := [replicaMariadbContainer config]
          ++ buildReplicaSetupContainer config replicationSetupScript
        volumes := [⟨"db-config", true⟩] }
      volumeClaimTemplates := [⟨"db-data", ["ReadWriteOnce"], some config.storageSize⟩] } }

/-! ## The application StatefulSet reconcile step
(`internal/reconciler/app.go`, `ReconcileStatefulSet`, lines 76–114) -/

/-- What the storage part of the step does: delete the workload and its
prefix-matching claims (Recreate), or issue in-place claim expansions
(Resize; possibly none). -/
inductive StorageAction
  | recreate (stsName : String) (deletedPVCs : List String)
  | resize (updates : List (String × Int))
deriving DecidableEq, Repr

/-- `ReconcileStatefulSet` when the StatefulSet already exists: build the
desired shape; on a storage-size delta either recreate (and stop) or
resize the tier's claims; then apply the field diff, writing the desired
spec when `statefulSetNeedsUpdate` — including its replica count, with no
autoscaler exemption.  `pvcs` are the tier's prefix-matched claims; the
result is the storage action plus the StatefulSet spec written (`none` for
no write). -/
def reconcileAppStatefulSet (ms : MusicService) (current : StatefulSet)
    (pvcs : List PersistentVolumeClaim) :
    Except String (StorageAction × Option StatefulSetSpec) := do
  let desired ← BuildAppStatefulSet ms
  if storageSizeChanged current desired then
    if storageUpdatePolicy ms.spec.storage = "Recreate" then
      pure (StorageAction.recreate current.name (pvcs.map (·.name)), none)
    else
      pure (StorageAction.resize (resizePVCs desired pvcs),
        if statefulSetNeedsUpdate current desired then some desired.spec else none)
  else
    pure (StorageAction.resize [],
      if statefulSetNeedsUpdate current desired then some desired.spec else none)

/-! ## The credential manager (`internal/reconciler/database.go`) -/

/-- `replicationEnabled` (database.go, lines 292–300): unless the spec
explicitly carries a flag, replication defaults to enabled. -/
def replicationEnabled (ms : MusicService) : Bool :=
  match ms.spec.database with
  | none => false
  | some db =>
    match db.replication with
    | none => true
    | some r =>
      match r.enabled with
      | none => true
      | some e => e

/-- A hex digit. -/
def hexDigit (n : Nat) : Char :=
  if n < 10 then Char.ofNat (48 + n) else Char.ofNat (97 + (n - 10))

/-- `hex.EncodeToString`: two hex digits per byte. -/
def hexEncodeToString (bytes : List Nat) : String :=
  String.mk (bytes.foldr (fun b acc => hexDigit (b / 16 % 16) :: hexDigit (b % 16) :: acc) [])

/-- `generatePassword` (database.go, lines 284–290): hex-encode `length`
bytes drawn from `crypto/rand`; the random bytes are an explicit input of
the model. -/
def generatePassword (randBytes : List Nat) : String :=
  hexEncodeToString randBytes

/-- The `username`/`password` entries of the replication secret's data
map (the only keys the operator reads or writes). -/
structure SecretData where
  username : Option String
  password : Option String
deriving DecidableEq, Repr

/-- A write the credential manager performs against the state store. -/
inductive SecretWrite
  | create (ownedByParent : Bool) (data : SecretData)
  | update (data : SecretData)
deriving DecidableEq, Repr

/-- `ensureReplicationSecret` (database.go, lines 220–282): no-op when
replication is off or no replicas are declared; when the secret is absent,
create it (owned by the parent) with username `repl` and a generated
password; when present, backfill only the missing keys and write back only
if something was filled in.  Returns the resulting data and the writes
performed. -/
def ensureReplicationSecret (ms : MusicService) (existing : Option SecretData)
    (randBytes : List Nat) : Option SecretData × List SecretWrite :=
  if ¬ (replicationEnabled ms = true) then (none, [])
  else
    match ms.spec.database with
    | none => (none, [])
    | some db =>
      if db.replicas = 0 then (none, [])
      else
        match existing with
        | none =>
          let data : SecretData := ⟨some "repl", some (generatePassword randBytes)⟩
          (some data, [SecretWrite.create true data])
        | some data =>
          let (data, updated) :=
            match data.username with
            | none => ({ data with username := some "repl" }, true)
            | some _ => (data, false)
          let (data, updated) :=
            match data.password with
            | none => ({ data with password := some (generatePassword randBytes) }, true)
            | some _ => (data, updated)
          (some data, if updated then [SecretWrite.update data] else [])

/-! ## The status manager (`internal/status/manager.go`) -/

/-- The zero `DatabaseStatus` the controller and status manager install
when the field is still nil. -/
def DatabaseStatus.empty : DatabaseStatus :=
  { phase := "", masterReady := false, replicasReady := 0,
    replicaEverCreated := false, replicaLastSeen := none,
    replicaDeletionDetected := false, replicationReady := false }

/-- The outcome of a state-store `Get`: the object, a NotFound error, or
any other error. -/
inductive GetResult (α : Type)
  | found (a : α)
  | notFound
  | otherError
deriving DecidableEq, Repr

/-- `UpdateReconciled` (manager.go, lines 73–86): Reconciled condition
True, reconcile time stamped, `lastError` cleared. -/
def UpdateReconciled (now : Int) (ms : MusicService) (st : MusicServiceStatus) :
    MusicServiceStatus :=
  { st with
    conditions := setCondition now st.conditions
      { type := "Reconciled", status := "True", observedGeneration := ms.generation,
        lastTransitionTime := 0, reason := "ReconcileSuccess",
        message := "Successfully reconciled" }
    lastReconcileTime := some now
    lastError := "" }

/-- `UpdateError` (manager.go, lines 89–103): phase Failed, `lastError`
set, Reconciled condition False with the failing reason/message. -/
def UpdateError (now : Int) (ms : MusicService) (st : MusicServiceStatus)
    (reason message : String) : MusicServiceStatus :=
  { st with
    phase := "Failed"
    lastError := message
    lastReconcileTime := some now
    conditions := setCondition now st.conditions
      { type := "Reconciled", status := "False", observedGeneration := ms.generation,
        lastTransitionTime := 0, reason := reason, message := message } }

/-- `UpdateFromAppStatefulSet` (manager.go, lines 106–143): copy the
replica counts, derive the phase and the Available condition from
ready-vs-desired, then refresh the app tier's storage-warning condition. -/
def UpdateFromAppStatefulSet (now : Int) (ms : MusicService)
    (st : MusicServiceStatus) (sts : StatefulSet)
    (appPVCs : List PersistentVolumeClaim) : MusicServiceStatus :=
  let st := { st with
    readyReplicas := sts.readyReplicas
    desiredReplicas := sts.spec.replicas
    observedGeneration := ms.generation }
  let st :=
    if sts.readyReplicas = 0 then
      { st with
        phase := "Pending"
        conditions := setCondition now st.conditions
          { type := "Available", status := "False", observedGeneration := ms.generation,
            lastTransitionTime := 0, reason := "PodsNotReady",
            message := "Waiting for pods to be ready" } }
    else if sts.readyReplicas < sts.spec.replicas then
      { st with
        phase := "Progressing"
        conditions := setCondition now st.conditions
          { type := "Available", status := "False", observedGeneration := ms.generation,
            lastTransitionTime := 0, reason := "PodsProgressing",
            message := "Waiting for pods: " ++ toString sts.readyReplicas ++ "/"
              ++ toString sts.spec.replicas ++ " ready" } }
    else
      { st with
        phase := "Available"
        conditions := setCondition now st.conditions
          { type := "Available", status := "True", observedGeneration := ms.generation,
            lastTransitionTime := 0, reason := "PodsReady",
            message := "All replicas are ready" } }
  { st with conditions :=
      (updateStorageWarnings now ms.generation st.conditions sts appPVCs
        ms.spec.storage.size "StorageWarningApp") }

/-- `UpdateDatabase` (manager.go, lines 146–201): ensure the database
sub-status exists; from the master StatefulSet (when found) derive
masterReady/phase and the database tier's storage warning; when replicas
are declared, a found replica StatefulSet records the history flags and
the `DatabaseReplicaHistory` condition True, while NotFound after the
replica was ever created records the deletion and flips the condition
False/ReplicaDeleted.  Only called with the database enabled, so the
spec's database section is present. -/
def UpdateDatabase (now : Int) (ms : MusicService) (st : MusicServiceStatus)
    (master replica : GetResult StatefulSet)
    (dbPVCs : List PersistentVolumeClaim) : MusicServiceStatus :=
  match ms.spec.database with
  | none => st
  | some db =>
    let dbSt := st.database.getD DatabaseStatus.empty
    let (dbSt, conds) :=
      match master with
      | GetResult.found m =>
        let dbSt := { dbSt with
          masterReady := decide (0 < m.readyReplicas)
          phase := if 0 < m.readyReplicas then "Ready" else "Pending" }
        let conds :=
          match db.storage with
          | some stor =>
            updateStorageWarnings now ms.generation st.conditions m dbPVCs
              stor.size "StorageWarningDatabase"
          | none => st.conditions
        (dbSt, conds)
      | _ => (dbSt, st.conditions)
    let (dbSt, conds) :=
      if 0 < db.replicas then
        match replica with
        | GetResult.found r =>
          ({ dbSt with
              replicasReady := r.readyReplicas
              replicaEverCreated := true
              replicaDeletionDetected := false
              replicaLastSeen := some now
              replicationReady := decide (0 < r.readyReplicas) },
            setCondition now conds
              { type := "DatabaseReplicaHistory", status := "True",
                observedGeneration := ms.generation, lastTransitionTime := 0,
                reason := "ReplicaObserved",
                message := "Replica StatefulSet is present" })
        | GetResult.notFound =>
          if dbSt.replicaEverCreated then
            ({ dbSt with replicaDeletionDetected := true },
              setCondition now conds
                { type := "DatabaseReplicaHistory", status := "False",
                  observedGeneration := ms.generation, lastTransitionTime := 0,
                  reason := "ReplicaDeleted",
                  message := "Replica StatefulSet was deleted after previously existing" })
          else (dbSt, conds)
        | GetResult.otherError => (dbSt, conds)
      else (dbSt, conds)
    { st with database := some dbSt, conditions := conds }

/-! ## The reconcile pass (`internal/controller/musicservice_controller.go`,
`Reconcile`, lines 113–197) -/

/-- The reconcile steps of one pass, in source order. -/
inductive ReconcileStep
  | service
  | statefulSet
  | autoscaler
  | dbGalera
  | dbGaleraServices
  | dbMaster
  | dbReplicas
  | dbServices
  | dbAutoscaler
deriving DecidableEq, Repr

/-- The `UpdateError` reason the controller attaches to each step's
failure. -/
def reasonFor : ReconcileStep → String
  | ReconcileStep.service => "ServiceFailed"
  | ReconcileStep.statefulSet => "StatefulSetFailed"
  | ReconcileStep.autoscaler => "AutoscalerFailed"
  | ReconcileStep.dbGalera => "DBGaleraFailed"
  | ReconcileStep.dbGaleraServices => "DBGaleraServicesFailed"
  | ReconcileStep.dbMaster => "DBMasterFailed"
  | ReconcileStep.dbReplicas => "DBReplicasFailed"
  | ReconcileStep.dbServices => "DBServicesFailed"
  | ReconcileStep.dbAutoscaler => "DBAutoscalerFailed"

/-- Embed a database dispatch step into the pass's step alphabet. -/
def dbStepToReconcileStep : DBStep → ReconcileStep
  | DBStep.galera => ReconcileStep.dbGalera
  | DBStep.galeraServices => ReconcileStep.dbGaleraServices
  | DBStep.master => ReconcileStep.dbMaster
  | DBStep.replicas => ReconcileStep.dbReplicas
  | DBStep.services => ReconcileStep.dbServices
  | DBStep.autoscaler => ReconcileStep.dbAutoscaler

/-- The application-tier steps (controller, lines 117–130). -/
def appReconcileSteps : List ReconcileStep :=
  [ReconcileStep.service, ReconcileStep.statefulSet, ReconcileStep.autoscaler]

/-- All steps of one pass, in source order. -/
def reconcileSteps (ms : MusicService) : List ReconcileStep :=
  appReconcileSteps ++ (databaseReconcileSteps ms).map dbStepToReconcileStep

/-- Run a list of steps: on the first step whose `outcome` carries an
error message, write the error status (`UpdateError`) and stop — the
remaining steps are not executed.  Returns the status, the executed
steps, and whether all succeeded. -/
def runSteps (now : Int) (ms : MusicService) (outcome : ReconcileStep → Option String) :
    List ReconcileStep → MusicServiceStatus → MusicServiceStatus × List ReconcileStep × Bool
  | [], st => (st, [], true)
  | s :: rest, st =>
    match outcome s with
    | some msg => (UpdateError now ms st (reasonFor s) msg, [s], false)
    | none =>
      let (st', executed, ok) := runSteps now ms outcome rest st
      (st', s :: executed, ok)

/-- What one pass observed in the state store for the status sync. -/
structure Observed where
  appSts : GetResult StatefulSet
  appPVCs : List PersistentVolumeClaim
  masterSts : GetResult StatefulSet
  replicaSts : GetResult StatefulSet
  dbPVCs : List PersistentVolumeClaim

/-- The status initialization opening the pass (controller, lines
114–115). -/
def passInitStatus (ms : MusicService) (st : MusicServiceStatus) : MusicServiceStatus :=
  { st with observedGeneration := ms.generation, desiredReplicas := ms.spec.replicas }

/-- The database sub-status initialization guarding the database steps
(controller, lines 134–136). -/
def dbInitStatus (ms : MusicService) (st : MusicServiceStatus) : MusicServiceStatus :=
  if databaseEnabled ms then
    { st with database := some (st.database.getD DatabaseStatus.empty) }
  else st

/-- The status sync closing a pass with no failed step (controller, lines
166–183): from the observed application StatefulSet when its Get
succeeded, then the database sub-status when enabled. -/
def statusSync (now : Int) (ms : MusicService) (obs : Observed)
    (st : MusicServiceStatus) : MusicServiceStatus :=
  let st4 :=
    match obs.appSts with
    | GetResult.found sts => UpdateFromAppStatefulSet now ms st sts obs.appPVCs
    | _ => st
  if databaseEnabled ms then
    UpdateDatabase now ms st4 obs.masterSts obs.replicaSts obs.dbPVCs
  else st4

/-- One reconcile pass after the finalizer handling (controller, lines
113–197): initialize observedGeneration/desiredReplicas; run the
application steps; with the database enabled, initialize the database
sub-status and run the dispatched database steps; on any step failure the
error status is the result and everything after the failing step is
skipped; otherwise sync status from the observed application StatefulSet
and database tiers and mark the pass reconciled. -/
def reconcilePass (now : Int) (ms : MusicService)
    (outcome : ReconcileStep → Option String) (obs : Observed)
    (st : MusicServiceStatus) : MusicServiceStatus × List ReconcileStep × Bool :=
  let (st1, ex1, ok1) := runSteps now ms outcome appReconcileSteps (passInitStatus ms st)
  if ok1 then
    let (st3, ex2, ok2) :=
      runSteps now ms outcome ((databaseReconcileSteps ms).map dbStepToReconcileStep)
        (dbInitStatus ms st1)
    if ok2 then
      (UpdateReconciled now ms (statusSync now ms obs st3), ex1 ++ ex2, true)
    else (st3, ex1 ++ ex2, false)
  else (st1, ex1, false)

/-! ## Claims C1 and C2 -/

/-- A (kind, name) pair is not among a target list when every entry
differs in kind or in name. -/
theorem notMem_targets {k n : String} {l : List (String × String)}
    (h : ∀ p ∈ l, p.1 ≠ k ∨ p.2 ≠ n) : (k, n) ∉ l := by
  intro hmem
  rcases h _ hmem with h' | h' <;> exact h' rfl

/-- **C1.** With the database enabled, one pass realizes exactly one
topology: HA enabled runs exactly the Galera steps (plus the shared
replica-autoscaler step) and none of them creates or updates the
`db-master` or `db-replica` StatefulSet; HA disabled (or absent) runs
exactly the primary/replica steps and none of them creates or updates a
Galera StatefulSet. -/
theorem C1_topology_exclusive (ms : MusicService) (hdb : databaseEnabled ms = true) :
    (databaseHAEnabled ms = true →
      databaseReconcileSteps ms = [DBStep.galera, DBStep.galeraServices, DBStep.autoscaler]
      ∧ ∀ s ∈ databaseReconcileSteps ms,
          ("StatefulSet", ms.name ++ "-db-master") ∉ dbStepTargets ms s
          ∧ ("StatefulSet", ms.name ++ "-db-replica") ∉ dbStepTargets ms s)
    ∧ (databaseHAEnabled ms = false →
      databaseReconcileSteps ms =
        [DBStep.master, DBStep.replicas, DBStep.services, DBStep.autoscaler]
      ∧ ∀ s ∈ databaseReconcileSteps ms,
          ("StatefulSet", ms.name ++ "-db-galera") ∉ dbStepTargets ms s) := by
  constructor
  · intro hha
    have hsteps : databaseReconcileSteps ms =
        [DBStep.galera, DBStep.galeraServices, DBStep.autoscaler] := by
      simp [databaseReconcileSteps, hdb, hha]
    refine ⟨hsteps, ?_⟩
    rw [hsteps]
    intro s hs
    fin_cases hs
    · refine ⟨notMem_targets ?_, notMem_targets ?_⟩ <;>
        · intro p hp
          fin_cases hp
          exact Or.inr (append_ne_append_right ms.name (by decide))
    · refine ⟨notMem_targets ?_, notMem_targets ?_⟩ <;>
        · intro p hp
          fin_cases hp <;> exact Or.inl (show "Service" ≠ "StatefulSet" by decide)
    · refine ⟨notMem_targets ?_, notMem_targets ?_⟩ <;>
        · intro p hp
          fin_cases hp
          exact Or.inl (show "HorizontalPodAutoscaler" ≠ "StatefulSet" by decide)
  · intro hha
    have hsteps : databaseReconcileSteps ms =
        [DBStep.master, DBStep.replicas, DBStep.services, DBStep.autoscaler] := by
      simp [databaseReconcileSteps, hdb, hha]
    refine ⟨hsteps, ?_⟩
    rw [hsteps]
    intro s hs
    fin_cases hs
    · refine notMem_targets ?_
      intro p hp
      fin_cases hp
      exact Or.inr (append_ne_append_right ms.name (by decide))
    · refine notMem_targets ?_
      intro p hp
      fin_cases hp
      · exact Or.inl (show "Secret" ≠ "StatefulSet" by decide)
      · exact Or.inr (append_ne_append_right ms.name (by decide))
    · refine notMem_targets ?_
      intro p hp
      fin_cases hp <;> exact Or.inl (show "Service" ≠ "StatefulSet" by decide)
    · refine notMem_targets ?_
      intro p hp
      fin_cases hp
      exact Or.inl (show "HorizontalPodAutoscaler" ≠ "StatefulSet" by decide)

/-- Witness for C1: a service with the database enabled; with HA enabled
the pass is the Galera steps, with HA absent it is the primary/replica
steps. -/
theorem C1_topology_exclusive_witness :
    let base : MusicServiceSpec :=
      { replicas := 1, image := "app:v1", port := 8080,
        storage := ⟨"10Gi", ""⟩, streaming := ⟨"320k", 100⟩,
        resources := none, autoscaling := none,
        database := some
          { enabled := true, replicas := 2, image := "", storage := none,
            rootPassword := "", replication := none,
            highAvailability := some ⟨true⟩, autoscaling := none } }
    let msHA : MusicService := ⟨"demo", "default", 1, base⟩
    databaseEnabled msHA = true
    ∧ databaseReconcileSteps msHA =
        [DBStep.galera, DBStep.galeraServices, DBStep.autoscaler] := by
  intro base msHA
  refine ⟨rfl, ?_⟩
  exact ((C1_topology_exclusive msHA rfl).1 rfl).1

/-- When the declared size parses strictly below the live template's
request, `updateStorageWarnings` takes the shrink branch. -/
theorem updateStorageWarnings_shrink (now gen : Int) (conds : List Condition)
    (sts : StatefulSet) (pvcs : List PersistentVolumeClaim)
    (desiredSize ct : String) (curSize dSize : Int)
    (hc : storageRequestFromStatefulSet sts = some curSize)
    (hp : parseQuantity desiredSize = some dSize) (hlt : dSize < curSize) :
    updateStorageWarnings now gen conds sts pvcs desiredSize ct =
      setCondition now conds
        { type := ct, status := "False", observedGeneration := gen,
          lastTransitionTime := 0, reason := "ShrinkNotSupported",
          message := "Requested storage size is smaller than current PVC size" } := by
  have hne : desiredSize ≠ "" := by
    intro he
    rw [he] at hp
    exact Option.noConfusion hp
  have hs : shrinkDetected sts desiredSize = true := by
    simp only [shrinkDetected, hc, hp]
    simp [hne, hlt]
  simp [updateStorageWarnings, hs]

/-- `updateStorageWarnings` never removes or edits a condition of a
different type. -/
theorem mem_updateStorageWarnings_of_ne (now gen : Int) (conds : List Condition)
    (sts : StatefulSet) (pvcs : List PersistentVolumeClaim) (s ct : String)
    (d : Condition) (hd : d ∈ conds) (hne : d.type ≠ ct) :
    d ∈ updateStorageWarnings now gen conds sts pvcs s ct := by
  unfold updateStorageWarnings
  split
  · exact mem_setCondition_of_ne now conds _ d hd hne
  · split
    · exact mem_setCondition_of_ne now conds _ d hd hne
    · exact mem_setCondition_of_ne now conds _ d hd hne

/-- **C2.** Under the Resize policy (the default for an unset policy): a
declared size strictly below every claim's current request causes zero
claim writes, and a declared size strictly below the live template's
request makes the status pass emit the `ShrinkNotSupported` warning
condition; a declared size strictly above a claim's request updates that
claim in place to the declared size; and the Resize policy never takes the
delete-and-recreate path. -/
theorem C2_resize_shrink_refusal (now gen : Int) (conds : List Condition)
    (sts desired : StatefulSet) (pvcs : List PersistentVolumeClaim)
    (declared ct : String) (dSize curSize : Int)
    (hdes : storageRequestFromStatefulSet desired = some dSize) :
    storageUpdatePolicy { size := declared, updatePolicy := "" } = "Resize"
    ∧ ((∀ pvc ∈ pvcs, ∀ cur, pvc.requestStorage = some cur → dSize < cur) →
        resizePVCs desired pvcs = [])
    ∧ (storageRequestFromStatefulSet sts = some curSize →
        parseQuantity declared = some dSize → dSize < curSize →
        ∃ d ∈ updateStorageWarnings now gen conds sts pvcs declared ct,
          d.type = ct ∧ d.status = "False" ∧ d.reason = "ShrinkNotSupported")
    ∧ (∀ pvc ∈ pvcs, ∀ cur, pvc.requestStorage = some cur → cur < dSize →
        (pvc.name, dSize) ∈ resizePVCs desired pvcs)
    ∧ (∀ (ms : MusicService) (act : StorageAction) (upd : Option StatefulSetSpec),
        storageUpdatePolicy ms.spec.storage = "Resize" →
        reconcileAppStatefulSet ms sts pvcs = Except.ok (act, upd) →
        ∃ us, act = StorageAction.resize us) := by
  refine ⟨rfl, ?_, ?_, ?_, ?_⟩
  · intro h
    unfold resizePVCs
    rw [hdes, List.filterMap_eq_nil_iff]
    intro pvc hpvc
    cases hr : pvc.requestStorage with
    | none => rfl
    | some cur =>
      have hlt := h pvc hpvc cur hr
      simp [le_of_lt hlt]
  · intro hc hp hlt
    rw [updateStorageWarnings_shrink now gen conds sts pvcs declared ct curSize dSize
      hc hp hlt]
    obtain ⟨d, hd, h1, h2, h3, _⟩ := mem_setCondition_self now conds
      { type := ct, status := "False", observedGeneration := gen,
        lastTransitionTime := 0, reason := "ShrinkNotSupported",
        message := "Requested storage size is smaller than current PVC size" }
    exact ⟨d, hd, h1, h2, h3⟩
  · intro pvc hpvc cur hcur hlt
    unfold resizePVCs
    rw [hdes]
    refine List.mem_filterMap.mpr ⟨pvc, hpvc, ?_⟩
    rw [hcur]
    simp [not_le.mpr hlt]
  · intro ms act upd hpol hrec
    unfold reconcileAppStatefulSet at hrec
    cases hb : BuildAppStatefulSet ms with
    | error e =>
      rw [hb] at hrec
      simp only [Bind.bind, Except.bind] at hrec
      exact Except.noConfusion hrec
    | ok desired2 =>
      rw [hb] at hrec
      simp only [Bind.bind, Except.bind, pure, Except.pure] at hrec
      split at hrec
      · split at hrec
        · next h2 =>
          rw [hpol] at h2
          exact absurd h2 (by decide)
        · simp only [Except.ok.injEq, Prod.mk.injEq] at hrec
          exact ⟨_, hrec.1.symm⟩
      · simp only [Except.ok.injEq, Prod.mk.injEq] at hrec
        exact ⟨_, hrec.1.symm⟩

/-- The concrete desired StatefulSet of the C2 witness (template request
10). -/
def desiredW : StatefulSet :=
  ⟨"demo", "default", [], true,
    ⟨1, "demo", [], [], ⟨[], [], []⟩, [⟨"music-data", [], some 10⟩]⟩, 0⟩

/-- The concrete live StatefulSet of the C2 witness (template request
20). -/
def stsW : StatefulSet :=
  ⟨"demo", "default", [], true,
    ⟨1, "demo", [], [], ⟨[], [], []⟩, [⟨"music-data", [], some 20⟩]⟩, 0⟩

/-- The concrete claims of the C2 witness: one bound claim at 20. -/
def pvcsW : List PersistentVolumeClaim := [⟨"music-data-demo-0", some 20, "Bound"⟩]

/-- Witness for C2 at a concrete input: declared `"10"` against claims and
template at `20` — the claim-write list is empty and the
`ShrinkNotSupported` condition is emitted; and a claim at `5` is grown to
`10`. -/
theorem C2_resize_shrink_refusal_witness :
    resizePVCs desiredW pvcsW = []
    ∧ (∃ d ∈ updateStorageWarnings 0 1 [] stsW pvcsW "10" "StorageWarningApp",
        d.type = "StorageWarningApp" ∧ d.status = "False" ∧ d.reason = "ShrinkNotSupported")
    ∧ ("grown-0", (10 : Int)) ∈ resizePVCs desiredW [⟨"grown-0", some 5, "Bound"⟩] := by
  have h := C2_resize_shrink_refusal 0 1 [] stsW desiredW pvcsW "10" "StorageWarningApp"
    10 20 rfl
  have h2 := C2_resize_shrink_refusal 0 1 [] stsW desiredW
    [⟨"grown-0", some 5, "Bound"⟩] "10" "StorageWarningApp" 10 20 rfl
  refine ⟨?_, ?_, ?_⟩
  · refine h.2.1 ?_
    intro pvc hpvc cur hcur
    have hpe := List.mem_singleton.mp hpvc
    subst hpe
    have h20 : some (20 : Int) = some cur := hcur
    injection h20 with h20
    omega
  · exact h.2.2.1 rfl (by decide) (by decide)
  · exact h2.2.2.2.1 ⟨"grown-0", some 5, "Bound"⟩ (List.mem_singleton.mpr rfl) 5 rfl
      (by decide)

/-! ## Claim C3 -/

/-- A MusicService with an autoscaler configured for the application
workload, used to exercise the replica-count diff. -/
def msC3 : MusicService :=
  ⟨"demo", "default", 1,
    { replicas := 3, image := "music:v1", port := 8080,
      storage := ⟨"10Gi", ""⟩, streaming := ⟨"320k", 100⟩,
      resources := none, autoscaling := some ⟨1, 5, 80, none⟩, database := none }⟩

/-- **C3 is false on the code.**  With `Spec.Autoscaling` set (so the HPA
descriptor exists), a live StatefulSet that differs from the desired shape
only in its replica count — the situation after the external autoscaler
scaled it — still triggers the update, and the written spec carries the
spec's static replica count: the diff does not exclude the replica-count
field. -/
theorem C3_counterexample :
    msC3.spec.autoscaling ≠ none
    ∧ ∃ desired : StatefulSet, BuildAppStatefulSet msC3 = Except.ok desired
        ∧ desired.spec.replicas = msC3.spec.replicas
        ∧ statefulSetNeedsUpdate
            { desired with spec := { desired.spec with replicas := 4 } } desired = true
        ∧ reconcileAppStatefulSet msC3
            { desired with spec := { desired.spec with replicas := 4 } } [] =
            Except.ok (StorageAction.resize [], some desired.spec) := by
  refine ⟨fun h => Option.noConfusion h, ?_⟩
  refine ⟨_, rfl, rfl, ?_, ?_⟩
  · rfl
  · rfl

/-- **C3 amended.**  The replica-count field is never excluded from the
update diff: whenever the live replica count differs from the desired
(spec-static) count, `statefulSetNeedsUpdate` fires — also when an
autoscaler descriptor exists for the workload — so the reconciler writes
the static count back over externally scaled values. -/
theorem C3_amended_replicas_always_diffed (current desired : StatefulSet)
    (h : current.spec.replicas ≠ desired.spec.replicas) :
    statefulSetNeedsUpdate current desired = true := by
  have hb : (current.spec.replicas != desired.spec.replicas) = true := bne_iff_ne.mpr h
  simp [statefulSetNeedsUpdate, hb]

/-- Witness for the amended C3 at concrete inputs differing only in
replica count. -/
theorem C3_amended_replicas_always_diffed_witness :
    ((⟨"demo", "default", [], true, ⟨4, "demo", [], [], ⟨[], [], []⟩, []⟩, 0⟩ :
        StatefulSet).spec.replicas ≠
      (⟨"demo", "default", [], true, ⟨3, "demo", [], [], ⟨[], [], []⟩, []⟩, 0⟩ :
        StatefulSet).spec.replicas)
    ∧ statefulSetNeedsUpdate
        ⟨"demo", "default", [], true, ⟨4, "demo", [], [], ⟨[], [], []⟩, []⟩, 0⟩
        ⟨"demo", "default", [], true, ⟨3, "demo", [], [], ⟨[], [], []⟩, []⟩, 0⟩ = true :=
  ⟨by decide, C3_amended_replicas_always_diffed _ _ (by decide)⟩

/-! ## Claim C4 -/

/-- `UpdateFromAppStatefulSet` with zero ready replicas: phase Pending and
the Available/PodsNotReady condition, then the storage-warning refresh. -/
theorem UpdateFromAppStatefulSet_pending (now : Int) (ms : MusicService)
    (st : MusicServiceStatus) (sts : StatefulSet)
    (pvcs : List PersistentVolumeClaim) (h0 : sts.readyReplicas = 0) :
    (UpdateFromAppStatefulSet now ms st sts pvcs).phase = "Pending"
    ∧ (UpdateFromAppStatefulSet now ms st sts pvcs).conditions =
        updateStorageWarnings now ms.generation
          (setCondition now st.conditions
            ⟨"Available", "False", ms.generation, 0, "PodsNotReady",
              "Waiting for pods to be ready"⟩)
          sts pvcs ms.spec.storage.size "StorageWarningApp" := by
  unfold UpdateFromAppStatefulSet
  simp [h0]

/-- `UpdateFromAppStatefulSet` at 2 of 3 ready: phase Progressing and the
Available/PodsProgressing condition with the "2/3 ready" message. -/
theorem UpdateFromAppStatefulSet_progressing (now : Int) (ms : MusicService)
    (st : MusicServiceStatus) (sts : StatefulSet)
    (pvcs : List PersistentVolumeClaim) (h2 : sts.readyReplicas = 2)
    (h3 : sts.spec.replicas = 3) :
    (UpdateFromAppStatefulSet now ms st sts pvcs).phase = "Progressing"
    ∧ (UpdateFromAppStatefulSet now ms st sts pvcs).conditions =
        updateStorageWarnings now ms.generation
          (setCondition now st.conditions
            ⟨"Available", "False", ms.generation, 0, "PodsProgressing",
              "Waiting for pods: 2/3 ready"⟩)
          sts pvcs ms.spec.storage.size "StorageWarningApp" := by
  unfold UpdateFromAppStatefulSet
  simp [h2, h3]
  rfl

/-- `UpdateFromAppStatefulSet` at 3 of 3 ready: phase Available and the
Available/PodsReady condition. -/
theorem UpdateFromAppStatefulSet_available (now : Int) (ms : MusicService)
    (st : MusicServiceStatus) (sts : StatefulSet)
    (pvcs : List PersistentVolumeClaim) (h2 : sts.readyReplicas = 3)
    (h3 : sts.spec.replicas = 3) :
    (UpdateFromAppStatefulSet now ms st sts pvcs).phase = "Available"
    ∧ (UpdateFromAppStatefulSet now ms st sts pvcs).conditions =
        updateStorageWarnings now ms.generation
          (setCondition now st.conditions
            ⟨"Available", "True", ms.generation, 0, "PodsReady",
              "All replicas are ready"⟩)
          sts pvcs ms.spec.storage.size "StorageWarningApp" := by
  unfold UpdateFromAppStatefulSet
  simp [h2, h3]

/-- **C4.** With 3 desired replicas: 0 ready yields phase Pending with
Available False/PodsNotReady; 2 ready yields phase Progressing with an
Available-False message containing "2/3 ready"; 3 ready yields phase
Available with Available True/PodsReady. -/
theorem C4_phase_transitions (now : Int) (ms : MusicService)
    (st : MusicServiceStatus) (sts : StatefulSet)
    (pvcs : List PersistentVolumeClaim) (h3 : sts.spec.replicas = 3) :
    (sts.readyReplicas = 0 →
      (UpdateFromAppStatefulSet now ms st sts pvcs).phase = "Pending"
      ∧ ∃ d ∈ (UpdateFromAppStatefulSet now ms st sts pvcs).conditions,
          d.type = "Available" ∧ d.status = "False" ∧ d.reason = "PodsNotReady")
    ∧ (sts.readyReplicas = 2 →
      (UpdateFromAppStatefulSet now ms st sts pvcs).phase = "Progressing"
      ∧ ∃ d ∈ (UpdateFromAppStatefulSet now ms st sts pvcs).conditions,
          d.type = "Available" ∧ d.status = "False"
          ∧ d.message = "Waiting for pods: 2/3 ready"
          ∧ ∃ a b, d.message = a ++ "2/3 ready" ++ b)
    ∧ (sts.readyReplicas = 3 →
      (UpdateFromAppStatefulSet now ms st sts pvcs).phase = "Available"
      ∧ ∃ d ∈ (UpdateFromAppStatefulSet now ms st sts pvcs).conditions,
          d.type = "Available" ∧ d.status = "True" ∧ d.reason = "PodsReady") := by
  refine ⟨?_, ?_, ?_⟩
  · intro h0
    obtain ⟨hphase, hconds⟩ := UpdateFromAppStatefulSet_pending now ms st sts pvcs h0
    refine ⟨hphase, ?_⟩
    rw [hconds]
    obtain ⟨d, hd, hty, hst, hre, _⟩ := mem_setCondition_self now st.conditions
      ⟨"Available", "False", ms.generation, 0, "PodsNotReady",
        "Waiting for pods to be ready"⟩
    exact ⟨d, mem_updateStorageWarnings_of_ne now ms.generation _ sts pvcs
      ms.spec.storage.size "StorageWarningApp" d hd
      (by rw [hty]; exact (show ("Available" : String) ≠ "StorageWarningApp" by decide)),
      hty, hst, hre⟩
  · intro h2
    obtain ⟨hphase, hconds⟩ :=
      UpdateFromAppStatefulSet_progressing now ms st sts pvcs h2 h3
    refine ⟨hphase, ?_⟩
    rw [hconds]
    obtain ⟨d, hd, hty, hst, _, hmsg⟩ := mem_setCondition_self now st.conditions
      ⟨"Available", "False", ms.generation, 0, "PodsProgressing",
        "Waiting for pods: 2/3 ready"⟩
    refine ⟨d, mem_updateStorageWarnings_of_ne now ms.generation _ sts pvcs
      ms.spec.storage.size "StorageWarningApp" d hd
      (by rw [hty]; exact (show ("Available" : String) ≠ "StorageWarningApp" by decide)),
      hty, hst, hmsg, "Waiting for pods: ", "",
      by
        rw [hmsg]
        exact (show ("Waiting for pods: 2/3 ready" : String) =
          "Waiting for pods: " ++ "2/3 ready" ++ "" by decide)⟩
  · intro h3r
    obtain ⟨hphase, hconds⟩ :=
      UpdateFromAppStatefulSet_available now ms st sts pvcs h3r h3
    refine ⟨hphase, ?_⟩
    rw [hconds]
    obtain ⟨d, hd, hty, hst, hre, _⟩ := mem_setCondition_self now st.conditions
      ⟨"Available", "True", ms.generation, 0, "PodsReady", "All replicas are ready"⟩
    exact ⟨d, mem_updateStorageWarnings_of_ne now ms.generation _ sts pvcs
      ms.spec.storage.size "StorageWarningApp" d hd
      (by rw [hty]; exact (show ("Available" : String) ≠ "StorageWarningApp" by decide)),
      hty, hst, hre⟩

/-- The MusicService of the C4 witness. -/
def msW4 : MusicService :=
  ⟨"demo", "default", 1,
    { replicas := 3, image := "app:v1", port := 8080, storage := ⟨"10Gi", ""⟩,
      streaming := ⟨"320k", 10⟩, resources := none, autoscaling := none,
      database := none }⟩

/-- The empty status of the C4 witness. -/
def stW4 : MusicServiceStatus := ⟨0, 0, 0, "", none, "", [], none⟩

/-- The observed application StatefulSet of the C4 witness: 3 desired, 2
ready. -/
def stsW4 : StatefulSet :=
  ⟨"demo", "default", [], true, ⟨3, "demo", [], [], ⟨[], [], []⟩, []⟩, 2⟩

/-- Witness for C4 at a concrete input: 2 of 3 ready gives phase
Progressing. -/
theorem C4_phase_transitions_witness :
    stsW4.spec.replicas = 3 ∧ stsW4.readyReplicas = 2
    ∧ (UpdateFromAppStatefulSet 0 msW4 stW4 stsW4 []).phase = "Progressing" :=
  ⟨rfl, rfl, ((C4_phase_transitions 0 msW4 stW4 stsW4 [] rfl).2.1 rfl).1⟩

/-! ## Claim C6 -/

/-- Hex encoding yields two characters per byte. -/
theorem hexEncodeToString_length (bytes : List Nat) :
    (hexEncodeToString bytes).length = 2 * bytes.length := by
  unfold hexEncodeToString
  show (bytes.foldr (fun b acc => hexDigit (b / 16 % 16) :: hexDigit (b % 16) :: acc)
    []).length = 2 * bytes.length
  induction bytes with
  | nil => rfl
  | cons b bs ih =>
    rw [List.foldr_cons, List.length_cons, List.length_cons, ih, List.length_cons]
    ring

/-- **C6.** With replication enabled and declared replicas nonzero: an
absent secret triggers exactly one create — owned by the parent, username
`repl`, password the hex encoding of the random bytes, hence of fixed
length 32 for the source's 16 random bytes; a present secret is only
backfilled — an existing username or password value is never overwritten,
an update is written only when a key was missing, and a fully populated
secret causes zero writes. -/
theorem C6_credential_create_once (ms : MusicService) (db : DatabaseSpec)
    (randBytes : List Nat) (hdb : ms.spec.database = some db)
    (hrep : replicationEnabled ms = true) (hrepl : db.replicas ≠ 0) :
    (ensureReplicationSecret ms none randBytes =
      (some ⟨some "repl", some (generatePassword randBytes)⟩,
        [SecretWrite.create true ⟨some "repl", some (generatePassword randBytes)⟩]))
    ∧ (randBytes.length = 16 → (generatePassword randBytes).length = 32)
    ∧ (∀ un pw : Option String,
        ensureReplicationSecret ms (some ⟨un, pw⟩) randBytes =
          (some ⟨some (un.getD "repl"), some (pw.getD (generatePassword randBytes))⟩,
            if un = none ∨ pw = none then
              [SecretWrite.update
                ⟨some (un.getD "repl"), some (pw.getD (generatePassword randBytes))⟩]
            else []))
    ∧ (∀ u p : String,
        ensureReplicationSecret ms (some ⟨some u, some p⟩) randBytes =
          (some ⟨some u, some p⟩, [])) := by
  refine ⟨?_, ?_, ?_, ?_⟩
  · simp [ensureReplicationSecret, hdb, hrep, hrepl]
  · intro h16
    unfold generatePassword
    rw [hexEncodeToString_length, h16]
  · intro un pw
    cases un <;> cases pw <;> simp [ensureReplicationSecret, hdb, hrep, hrepl]
  · intro u p
    simp [ensureReplicationSecret, hdb, hrep, hrepl]

/-- The MusicService of the C6 witness: database enabled, two replicas,
no explicit replication flag. -/
def msW6 : MusicService :=
  ⟨"demo", "default", 1,
    { replicas := 1, image := "app:v1", port := 8080, storage := ⟨"10Gi", ""⟩,
      streaming := ⟨"320k", 10⟩, resources := none, autoscaling := none,
      database := some
        { enabled := true, replicas := 2, image := "", storage := none,
          rootPassword := "", replication := none, highAvailability := none,
          autoscaling := none } }⟩

/-- The 16 concrete random bytes of the C6 witness. -/
def rbW : List Nat := List.replicate 16 0

/-- Witness for C6 at a concrete input: one create on the first pass; a
32-character password; zero writes on a fully populated secret. -/
theorem C6_credential_create_once_witness :
    ensureReplicationSecret msW6 none rbW =
      (some ⟨some "repl", some (generatePassword rbW)⟩,
        [SecretWrite.create true ⟨some "repl", some (generatePassword rbW)⟩])
    ∧ (generatePassword rbW).length = 32
    ∧ ensureReplicationSecret msW6 (some ⟨some "usr", some "pw"⟩) rbW =
        (some ⟨some "usr", some "pw"⟩, []) := by
  have h := C6_credential_create_once msW6
    { enabled := true, replicas := 2, image := "", storage := none,
      rootPassword := "", replication := none, highAvailability := none,
      autoscaling := none } rbW rfl rfl (by decide)
  exact ⟨h.1, h.2.1 (by decide), h.2.2.2 "usr" "pw"⟩

/-! ## Claim C7 -/

/-- **C7.** With the database enabled and declared replicas positive: when
the replica tier was never created and is absent, `replicaDeletionDetected`
is left unchanged (in particular it stays false); once the replica
StatefulSet is observed, `replicaEverCreated` is set; a set
`replicaEverCreated` survives every pass, whatever is observed; and when
the tier was ever created but is now NotFound, `replicaDeletionDetected`
becomes true and the `DatabaseReplicaHistory` condition is set
False/ReplicaDeleted. -/
theorem C7_replica_history (now : Int) (ms : MusicService)
    (st : MusicServiceStatus) (db : DatabaseSpec)
    (master replica : GetResult StatefulSet)
    (dbPVCs : List PersistentVolumeClaim)
    (hdb : ms.spec.database = some db) (hr : 0 < db.replicas) :
    ((st.database.getD DatabaseStatus.empty).replicaEverCreated = false →
      replica = GetResult.notFound →
      ((UpdateDatabase now ms st master replica dbPVCs).database.getD
          DatabaseStatus.empty).replicaDeletionDetected =
        (st.database.getD DatabaseStatus.empty).replicaDeletionDetected)
    ∧ (∀ r, replica = GetResult.found r →
      ((UpdateDatabase now ms st master replica dbPVCs).database.getD
          DatabaseStatus.empty).replicaEverCreated = true)
    ∧ ((st.database.getD DatabaseStatus.empty).replicaEverCreated = true →
      ((UpdateDatabase now ms st master replica dbPVCs).database.getD
          DatabaseStatus.empty).replicaEverCreated = true)
    ∧ ((st.database.getD DatabaseStatus.empty).replicaEverCreated = true →
      replica = GetResult.notFound →
      ((UpdateDatabase now ms st master replica dbPVCs).database.getD
          DatabaseStatus.empty).replicaDeletionDetected = true
      ∧ ∃ d ∈ (UpdateDatabase now ms st master replica dbPVCs).conditions,
          d.type = "DatabaseReplicaHistory" ∧ d.status = "False"
          ∧ d.reason = "ReplicaDeleted") := by
  refine ⟨?_, ?_, ?_, ?_⟩
  · intro hev hnf
    subst hnf
    cases master <;> simp [UpdateDatabase, hdb, hr, hev]
  · intro r hf
    subst hf
    cases master <;> simp [UpdateDatabase, hdb, hr]
  · intro hev
    cases replica <;> cases master <;> simp [UpdateDatabase, hdb, hr, hev]
  · intro hev hnf
    subst hnf
    constructor
    · cases master <;> simp [UpdateDatabase, hdb, hr, hev]
    · cases master with
      | found m =>
        cases hs : db.storage with
        | none =>
          simp only [UpdateDatabase, hdb, hr, hev, hs]
          simp [hr, hev]
          obtain ⟨d, hd, h1, h2, h3, _⟩ := mem_setCondition_self now st.conditions
            ⟨"DatabaseReplicaHistory", "False", ms.generation, 0, "ReplicaDeleted",
              "Replica StatefulSet was deleted after previously existing"⟩
          exact ⟨d, hd, h1, h2, h3⟩
        | some stor =>
          simp only [UpdateDatabase, hdb, hr, hev, hs]
          simp [hr, hev]
          obtain ⟨d, hd, h1, h2, h3, _⟩ := mem_setCondition_self now
            (updateStorageWarnings now ms.generation st.conditions m dbPVCs
              stor.size "StorageWarningDatabase")
            ⟨"DatabaseReplicaHistory", "False", ms.generation, 0, "ReplicaDeleted",
              "Replica StatefulSet was deleted after previously existing"⟩
          exact ⟨d, hd, h1, h2, h3⟩
      | notFound =>
        simp only [UpdateDatabase, hdb]
        simp [hr, hev]
        obtain ⟨d, hd, h1, h2, h3, _⟩ := mem_setCondition_self now st.conditions
          ⟨"DatabaseReplicaHistory", "False", ms.generation, 0, "ReplicaDeleted",
            "Replica StatefulSet was deleted after previously existing"⟩
        exact ⟨d, hd, h1, h2, h3⟩
      | otherError =>
        simp only [UpdateDatabase, hdb]
        simp [hr, hev]
        obtain ⟨d, hd, h1, h2, h3, _⟩ := mem_setCondition_self now st.conditions
          ⟨"DatabaseReplicaHistory", "False", ms.generation, 0, "ReplicaDeleted",
            "Replica StatefulSet was deleted after previously existing"⟩
        exact ⟨d, hd, h1, h2, h3⟩

/-- The status of the C7 witness: the replica was once observed. -/
def stW7 : MusicServiceStatus :=
  ⟨0, 0, 0, "", none, "", [],
    some ⟨"Ready", true, 1, true, some 3, false, true⟩⟩

/-- Witness for C7 at a concrete input: with the replica tier once created
and now NotFound, the deletion is detected. -/
theorem C7_replica_history_witness :
    (stW7.database.getD DatabaseStatus.empty).replicaEverCreated = true
    ∧ ((UpdateDatabase 5 msW6 stW7 GetResult.notFound GetResult.notFound
        []).database.getD DatabaseStatus.empty).replicaDeletionDetected = true := by
  have h := C7_replica_history 5 msW6 stW7
    { enabled := true, replicas := 2, image := "", storage := none,
      rootPassword := "", replication := none, highAvailability := none,
      autoscaling := none } GetResult.notFound GetResult.notFound [] rfl (by decide)
  exact ⟨rfl, (h.2.2.2 rfl rfl).1⟩

/-! ## Claim C9 -/

/-- The default database storage size parses to its canonical value. -/
theorem parseQuantity_tenGi : parseQuantity "10Gi" = some 10737418240 := rfl

/-- `BuildAppStatefulSet` on a parsing storage size: the built
StatefulSet, spelled out. -/
theorem BuildAppStatefulSet_ok (ms : MusicService) (q : Int)
    (hq : parseQuantity ms.spec.storage.size = some q) :
    BuildAppStatefulSet ms = Except.ok {
      name := ms.name
      ns := ms.ns
      labels := getLabels ms "app"
      ownedByParent := true
      readyReplicas := 0
      spec := {
        replicas := ms.spec.replicas
        serviceName := ms.name
        selector := [("app", ms.name), ("component", "music-service")]
        templateLabels := [("app", ms.name), ("component", "music-service")]
        template := {
          initContainers := []
          containers := [{
            name := "music-service"
            image := ms.spec.image
            command := []
            resources := ms.spec.resources.getD ⟨[], []⟩
            env := [⟨"STREAMING_BITRATE", ms.spec.streaming.bitrate, none⟩,
                    ⟨"MAX_CONNECTIONS", toString ms.spec.streaming.maxConnections, none⟩]
            ports := [⟨"http", 80, "TCP"⟩]
            readinessProbe := none
            livenessProbe := none
            volumeMounts := [⟨"music-data", "/data"⟩] }]
          volumes := [] }
        volumeClaimTemplates := [⟨"music-data", ["ReadWriteOnce"], some q⟩] } } := by
  simp [BuildAppStatefulSet, Bind.bind, Except.bind, mustParse, hq, pure, Except.pure]

/-- `BuildDatabaseMasterStatefulSet` on a built config: the built
StatefulSet, spelled out. -/
theorem BuildDatabaseMasterStatefulSet_ok (ms : MusicService) (c : databaseConfig)
    (hcfg : buildDatabaseConfig ms = Except.ok c) :
    BuildDatabaseMasterStatefulSet ms = Except.ok {
      name := ms.name ++ "-db-master"
      ns := ms.ns
      labels := getLabels ms "db-master"
      ownedByParent := true
      readyReplicas := 0
      spec := {
        replicas := 1
        serviceName := ms.name ++ "-db-master"
        selector := [("app", ms.name), ("component", "db-master")]
        templateLabels := [("app", ms.name), ("component", "db-master")]
        template := {
          initContainers := [masterInitContainer c]
          containers := [masterMariadbContainer c]
          volumes := [⟨"db-config", true⟩] }
        volumeClaimTemplates := [⟨"db-data", ["ReadWriteOnce"], some c.storageSize⟩] } } := by
  simp [BuildDatabaseMasterStatefulSet, hcfg, Bind.bind, Except.bind, pure, Except.pure]

/-- `BuildDatabaseReplicaStatefulSet` on a built config: the built
StatefulSet, spelled out. -/
theorem BuildDatabaseReplicaStatefulSet_ok (ms : MusicService) (c : databaseConfig)
    (hcfg : buildDatabaseConfig ms = Except.ok c) :
    BuildDatabaseReplicaStatefulSet ms = Except.ok {
      name := ms.name ++ "-db-replica"
      ns := ms.ns
      labels := getLabels ms "db-replica"
      ownedByParent := true
      readyReplicas := 0
      spec := {
        replicas := c.replicas
        serviceName := ms.name ++ "-db-replica"
        selector := [("app", ms.name), ("component", "db-replica")]
        templateLabels := [("app", ms.name), ("component", "db-replica")]
        template := {
          initContainers := [replicaInitContainer c]
          containers := [replicaMariadbContainer c]
            ++ buildReplicaSetupContainer c (buildReplicaSetupScript c.masterHost)
          volumes := [⟨"db-config", true⟩] }
        volumeClaimTemplates := [⟨"db-data", ["ReadWriteOnce"], some c.storageSize⟩] } } := by
  simp [BuildDatabaseReplicaStatefulSet, hcfg, Bind.bind, Except.bind, pure, Except.pure]

/-- `buildDatabaseConfig` with no database section: the defaults. -/
theorem buildDatabaseConfig_no_db (ms : MusicService)
    (hdb : ms.spec.database = none) :
    buildDatabaseConfig ms = Except.ok
      ⟨"mariadb:10.11", 10737418240, "rootpass", 0, ms.name ++ "-db-master",
        true, true, replicationSecretName ms⟩ := by
  simp [buildDatabaseConfig, hdb, Bind.bind, Except.bind, mustParse, parseQuantity_tenGi,
    pure, Except.pure]

/-- `buildDatabaseConfig` with a database section and no storage spec:
resolved at the default 10Gi. -/
theorem buildDatabaseConfig_no_storage (ms : MusicService) (db : DatabaseSpec)
    (hdb : ms.spec.database = some db) (hst : db.storage = none) :
    buildDatabaseConfig ms = Except.ok (databaseConfigResolved ms db 10737418240) := by
  simp [buildDatabaseConfig, databaseConfigResolved, hdb, hst, Bind.bind, Except.bind,
    mustParse, pure, Except.pure, parseQuantity_tenGi]

/-- `buildDatabaseConfig` with a well-formed declared storage size. -/
theorem buildDatabaseConfig_parse (ms : MusicService) (db : DatabaseSpec)
    (stor : StorageSpec) (q : Int) (hdb : ms.spec.database = some db)
    (hst : db.storage = some stor) (hp : parseQuantity stor.size = some q) :
    buildDatabaseConfig ms = Except.ok (databaseConfigResolved ms db q) := by
  simp [buildDatabaseConfig, databaseConfigResolved, hdb, hst, Bind.bind, Except.bind,
    mustParse, hp, pure, Except.pure, parseQuantity_tenGi]

/-- `buildDatabaseConfig` with a malformed declared storage size: the
error carries the offending string. -/
theorem buildDatabaseConfig_malformed (ms : MusicService) (db : DatabaseSpec)
    (stor : StorageSpec) (hdb : ms.spec.database = some db)
    (hst : db.storage = some stor) (hp : parseQuantity stor.size = none) :
    buildDatabaseConfig ms = Except.error stor.size := by
  simp [buildDatabaseConfig, hdb, hst, Bind.bind, Except.bind, mustParse, hp,
    parseQuantity_tenGi]

/-- **C9.** The builder fails only on a malformed quantity string and the
failure is propagated, not swallowed: `BuildAppStatefulSet` fails exactly
when the app storage size does not parse (the error carrying that string)
and succeeds on every spec whose size parses; `buildDatabaseConfig` fails
exactly when an explicitly declared database storage size does not parse;
and the database StatefulSet builders propagate that config failure
verbatim and succeed whenever the config builds. -/
theorem C9_builder_fails_only_on_malformed_quantity (ms : MusicService) :
    (∀ e, BuildAppStatefulSet ms = Except.error e →
      parseQuantity ms.spec.storage.size = none ∧ e = ms.spec.storage.size)
    ∧ (∀ q, parseQuantity ms.spec.storage.size = some q →
      ∃ sts, BuildAppStatefulSet ms = Except.ok sts)
    ∧ (∀ e, buildDatabaseConfig ms = Except.error e →
      ∃ db stor, ms.spec.database = some db ∧ db.storage = some stor
        ∧ parseQuantity stor.size = none ∧ e = stor.size)
    ∧ ((∀ db stor, ms.spec.database = some db → db.storage = some stor →
        ∃ q, parseQuantity stor.size = some q) →
      ∃ c, buildDatabaseConfig ms = Except.ok c)
    ∧ (∀ e, buildDatabaseConfig ms = Except.error e →
      BuildDatabaseMasterStatefulSet ms = Except.error e
      ∧ BuildDatabaseReplicaStatefulSet ms = Except.error e)
    ∧ (∀ c, buildDatabaseConfig ms = Except.ok c →
      (∃ s1, BuildDatabaseMasterStatefulSet ms = Except.ok s1)
      ∧ ∃ s2, BuildDatabaseReplicaStatefulSet ms = Except.ok s2) := by
  refine ⟨?_, ?_, ?_, ?_, ?_, ?_⟩
  · intro e he
    cases hp : parseQuantity ms.spec.storage.size with
    | none =>
      refine ⟨rfl, ?_⟩
      unfold BuildAppStatefulSet at he
      rw [show mustParse ms.spec.storage.size = Except.error ms.spec.storage.size by
        simp [mustParse, hp]] at he
      have h' : Except.error (ε := String) (α := StatefulSet) ms.spec.storage.size =
          Except.error e := he
      injection h' with h'
      exact h'.symm
    | some q =>
      unfold BuildAppStatefulSet at he
      rw [show mustParse ms.spec.storage.size = Except.ok q by simp [mustParse, hp]] at he
      exact Except.noConfusion (show Except.ok _ = Except.error e from he)
  · intro q hq
    exact ⟨_, BuildAppStatefulSet_ok ms q hq⟩
  · intro e he
    cases hdb : ms.spec.database with
    | none =>
      rw [buildDatabaseConfig_no_db ms hdb] at he
      exact Except.noConfusion he
    | some db =>
      cases hst : db.storage with
      | none =>
        rw [buildDatabaseConfig_no_storage ms db hdb hst] at he
        exact Except.noConfusion he
      | some stor =>
        cases hp : parseQuantity stor.size with
        | none =>
          rw [buildDatabaseConfig_malformed ms db stor hdb hst hp] at he
          injection he with he
          exact ⟨db, stor, rfl, hst, hp, he.symm⟩
        | some q =>
          rw [buildDatabaseConfig_parse ms db stor q hdb hst hp] at he
          exact Except.noConfusion he
  · intro hall
    cases hdb : ms.spec.database with
    | none => exact ⟨_, buildDatabaseConfig_no_db ms hdb⟩
    | some db =>
      cases hst : db.storage with
      | none => exact ⟨_, buildDatabaseConfig_no_storage ms db hdb hst⟩
      | some stor =>
        obtain ⟨q, hq⟩ := hall db stor hdb hst
        exact ⟨_, buildDatabaseConfig_parse ms db stor q hdb hst hq⟩
  · intro e he
    constructor
    · unfold BuildDatabaseMasterStatefulSet
      rw [he]
      rfl
    · unfold BuildDatabaseReplicaStatefulSet
      rw [he]
      rfl
  · intro c hc
    exact ⟨⟨_, BuildDatabaseMasterStatefulSet_ok ms c hc⟩,
      ⟨_, BuildDatabaseReplicaStatefulSet_ok ms c hc⟩⟩

/-- A spec whose storage size is malformed, for the C9 witness. -/
def msBad9 : MusicService :=
  ⟨"demo", "default", 1,
    { replicas := 1, image := "app:v1", port := 8080, storage := ⟨"banana", ""⟩,
      streaming := ⟨"320k", 10⟩, resources := none, autoscaling := none,
      database := none }⟩

/-- Witness for C9 at concrete inputs: a well-formed size builds, and
`"banana"` fails carrying the offending string. -/
theorem C9_builder_fails_only_on_malformed_quantity_witness :
    parseQuantity msW6.spec.storage.size = some 10737418240
    ∧ (∃ sts, BuildAppStatefulSet msW6 = Except.ok sts)
    ∧ (parseQuantity msBad9.spec.storage.size = none
        ∧ "banana" = msBad9.spec.storage.size) :=
  ⟨rfl,
    (C9_builder_fails_only_on_malformed_quantity msW6).2.1 10737418240 rfl,
    (C9_builder_fails_only_on_malformed_quantity msBad9).1 "banana" rfl⟩

/-! ## Claim C10 -/

/-- The same MusicService with `Replication.Enabled` made explicitly true
(GTID flag kept as declared). -/
def withExplicitReplication (ms : MusicService) (db : DatabaseSpec) : MusicService :=
  { name := ms.name
    ns := ms.ns
    generation := ms.generation
    spec := {
      replicas := ms.spec.replicas
      image := ms.spec.image
      port := ms.spec.port
      storage := ms.spec.storage
      streaming := ms.spec.streaming
      resources := ms.spec.resources
      autoscaling := ms.spec.autoscaling
      database := some {
        enabled := db.enabled
        replicas := db.replicas
        image := db.image
        storage := db.storage
        rootPassword := db.rootPassword
        replication := some ⟨some true, (db.replication.getD ⟨none, none⟩).gtid⟩
        highAvailability := db.highAvailability
        autoscaling := db.autoscaling } } }

/-- **C10.** With the database enabled and the replication flag absent
(either no `Replication` section or no `Enabled` sub-field), replication
is treated as enabled: `replicationEnabled` holds, the builder config has
replication on, with nonzero replicas an absent secret triggers the
creation of the replication secret, the built replica StatefulSet carries
the `replication-setup` container and the `REPLICATION_USER` /
`REPLICATION_PASSWORD` credentials on the mariadb container, and it is
identical to the StatefulSet built with `Replication.Enabled` explicitly
true. -/
theorem C10_replication_default_enabled (ms : MusicService) (db : DatabaseSpec)
    (hdb : ms.spec.database = some db)
    (habs : db.replication = none ∨ ∃ r, db.replication = some r ∧ r.enabled = none) :
    replicationEnabled ms = true
    ∧ (∀ c, buildDatabaseConfig ms = Except.ok c → c.replicationEnabled = true)
    ∧ (db.replicas ≠ 0 → ∀ randBytes,
        ensureReplicationSecret ms none randBytes =
          (some ⟨some "repl", some (generatePassword randBytes)⟩,
            [SecretWrite.create true ⟨some "repl", some (generatePassword randBytes)⟩]))
    ∧ (∀ c, buildDatabaseConfig ms = Except.ok c →
        ∃ sts, BuildDatabaseReplicaStatefulSet ms = Except.ok sts
          ∧ (∃ ctr ∈ sts.spec.template.containers, ctr.name = "replication-setup")
          ∧ ∃ mc ∈ sts.spec.template.containers, mc.name = "mariadb"
              ∧ (∃ ev ∈ mc.env, ev.name = "REPLICATION_USER")
              ∧ ∃ ev ∈ mc.env, ev.name = "REPLICATION_PASSWORD")
    ∧ BuildDatabaseReplicaStatefulSet ms =
        BuildDatabaseReplicaStatefulSet (withExplicitReplication ms db) := by
  have h1 : replicationEnabled ms = true := by
    rcases habs with h | ⟨r, hr, hre⟩
    · simp [replicationEnabled, hdb, h]
    · simp [replicationEnabled, hdb, hr, hre]
  have hres : ∀ sz : Int, (databaseConfigResolved ms db sz).replicationEnabled = true := by
    intro sz
    rcases habs with h | ⟨r, hr, hre⟩
    · simp [databaseConfigResolved, h]
    · simp [databaseConfigResolved, hr, hre]
  have h2 : ∀ c, buildDatabaseConfig ms = Except.ok c → c.replicationEnabled = true := by
    intro c hc
    cases hst : db.storage with
    | none =>
      rw [buildDatabaseConfig_no_storage ms db hdb hst] at hc
      injection hc with hc
      rw [← hc]
      exact hres _
    | some stor =>
      cases hp : parseQuantity stor.size with
      | none =>
        rw [buildDatabaseConfig_malformed ms db stor hdb hst hp] at hc
        exact Except.noConfusion hc
      | some q =>
        rw [buildDatabaseConfig_parse ms db stor q hdb hst hp] at hc
        injection hc with hc
        rw [← hc]
        exact hres _
  have hcfgeq : buildDatabaseConfig ms =
      buildDatabaseConfig (withExplicitReplication ms db) := by
    rcases habs with h | ⟨r, hr, hre⟩
    · simp [buildDatabaseConfig, withExplicitReplication, replicationSecretName, hdb, h]
    · simp [buildDatabaseConfig, withExplicitReplication, replicationSecretName, hdb,
        hr, hre]
  refine ⟨h1, h2, ?_, ?_, ?_⟩
  · intro hrep randBytes
    simp [ensureReplicationSecret, hdb, h1, hrep]
  · intro c hcfg
    have hcen : c.replicationEnabled = true := h2 c hcfg
    refine ⟨_, BuildDatabaseReplicaStatefulSet_ok ms c hcfg, ?_, ?_⟩
    · simp [buildReplicaSetupContainer, hcen]
    · simp [replicaMariadbContainer, replicaEnv, replicaBaseEnv, hcen,
        buildReplicaSetupContainer]
  · unfold BuildDatabaseReplicaStatefulSet
    rw [hcfgeq]
    rfl

/-- Witness for C10 at a concrete input: `msW6` (database enabled, no
`Replication` section): replication is on, the secret is created, and the
replica StatefulSet carries the setup container. -/
theorem C10_replication_default_enabled_witness :
    replicationEnabled msW6 = true
    ∧ ensureReplicationSecret msW6 none rbW =
        (some ⟨some "repl", some (generatePassword rbW)⟩,
          [SecretWrite.create true ⟨some "repl", some (generatePassword rbW)⟩])
    ∧ ∃ sts, BuildDatabaseReplicaStatefulSet msW6 = Except.ok sts
        ∧ (∃ ctr ∈ sts.spec.template.containers, ctr.name = "replication-setup")
        ∧ ∃ mc ∈ sts.spec.template.containers, mc.name = "mariadb"
            ∧ (∃ ev ∈ mc.env, ev.name = "REPLICATION_USER")
            ∧ ∃ ev ∈ mc.env, ev.name = "REPLICATION_PASSWORD" := by
  have h := C10_replication_default_enabled msW6
    { enabled := true, replicas := 2, image := "", storage := none,
      rootPassword := "", replication := none, highAvailability := none,
      autoscaling := none } rfl (Or.inl rfl)
  exact ⟨h.1, h.2.2.1 (by decide) rbW, h.2.2.2.1 _ (buildDatabaseConfig_no_storage
    msW6 _ rfl rfl)⟩

/-! ## Claim C8 -/

/-- Running steps that all succeed touches nothing and executes them
all. -/
theorem runSteps_all_ok (now : Int) (ms : MusicService)
    (outcome : ReconcileStep → Option String) (steps : List ReconcileStep)
    (st : MusicServiceStatus) (h : ∀ t ∈ steps, outcome t = none) :
    runSteps now ms outcome steps st = (st, steps, true) := by
  induction steps with
  | nil => rfl
  | cons s rest ih =>
    have hs : outcome s = none := h s (List.mem_cons_self s rest)
    simp [runSteps, hs, ih (fun t ht => h t (List.mem_cons_of_mem s ht))]

/-- Running steps whose first failure is `s` writes the error status at
`s` and executes exactly the prefix up to and including `s`. -/
theorem runSteps_first_fail (now : Int) (ms : MusicService)
    (outcome : ReconcileStep → Option String) (pre : List ReconcileStep)
    (s : ReconcileStep) (post : List ReconcileStep) (st : MusicServiceStatus)
    (msg : String) (hok : ∀ t ∈ pre, outcome t = none)
    (hfail : outcome s = some msg) :
    runSteps now ms outcome (pre ++ s :: post) st =
      (UpdateError now ms st (reasonFor s) msg, pre ++ [s], false) := by
  induction pre with
  | nil => simp [runSteps, hfail]
  | cons p pre' ih =>
    have hp : outcome p = none := hok p (List.mem_cons_self p pre')
    simp [runSteps, hp, ih (fun t ht => hok t (List.mem_cons_of_mem p ht))]

/-- **C8.** A pass whose first failing step is `s` stops there: the steps
after `s` are not executed, and the written status has phase Failed,
`lastError` the step's error message, and the Reconciled condition False
with the step's reason and message.  A pass with no failing step executes
every step, clears `lastError` to the empty string and sets the Reconciled
condition True. -/
theorem C8_error_short_circuit (now : Int) (ms : MusicService)
    (outcome : ReconcileStep → Option String) (obs : Observed)
    (st : MusicServiceStatus) :
    (∀ pre s post msg, reconcileSteps ms = pre ++ s :: post →
      (∀ t ∈ pre, outcome t = none) → outcome s = some msg →
      ∃ stErr, reconcilePass now ms outcome obs st = (stErr, pre ++ [s], false)
        ∧ stErr.phase = "Failed" ∧ stErr.lastError = msg
        ∧ ∃ d ∈ stErr.conditions, d.type = "Reconciled" ∧ d.status = "False"
            ∧ d.reason = reasonFor s ∧ d.message = msg)
    ∧ ((∀ t ∈ reconcileSteps ms, outcome t = none) →
      ∃ stOk, reconcilePass now ms outcome obs st = (stOk, reconcileSteps ms, true)
        ∧ stOk.lastError = ""
        ∧ ∃ d ∈ stOk.conditions, d.type = "Reconciled" ∧ d.status = "True"
            ∧ d.reason = "ReconcileSuccess") := by
  constructor
  · intro pre s post msg hsplit hok hfail
    unfold reconcileSteps at hsplit
    rcases List.append_eq_append_iff.mp hsplit with ⟨a', hpre, hdb⟩ | ⟨c', happ2, hpost⟩
    · -- the failing step is a database step
      have happ : ∀ t ∈ appReconcileSteps, outcome t = none := fun t ht =>
        hok t (hpre ▸ List.mem_append_left _ ht)
      have ha' : ∀ t ∈ a', outcome t = none := fun t ht =>
        hok t (hpre ▸ List.mem_append_right _ ht)
      refine ⟨UpdateError now ms (dbInitStatus ms (passInitStatus ms st))
        (reasonFor s) msg, ?_, rfl, rfl, ?_⟩
      · simp [reconcilePass,
          runSteps_all_ok now ms outcome appReconcileSteps (passInitStatus ms st) happ,
          hdb,
          runSteps_first_fail now ms outcome a' s post
            (dbInitStatus ms (passInitStatus ms st)) msg ha' hfail,
          hpre]
      · obtain ⟨d, hd, h1, h2, h3, h4⟩ := mem_setCondition_self now
          (dbInitStatus ms (passInitStatus ms st)).conditions
          ⟨"Reconciled", "False", ms.generation, 0, reasonFor s, msg⟩
        exact ⟨d, hd, h1, h2, h3, h4⟩
    · -- the failing step is an application step (or the decomposition
      -- degenerates to the database case with an empty middle)
      cases c' with
      | nil =>
        rw [List.append_nil] at happ2
        have hdb : (databaseReconcileSteps ms).map dbStepToReconcileStep = s :: post := by
          rw [List.nil_append] at hpost
          exact hpost.symm
        have happ : ∀ t ∈ appReconcileSteps, outcome t = none := fun t ht =>
          hok t (happ2 ▸ ht)
        refine ⟨UpdateError now ms (dbInitStatus ms (passInitStatus ms st))
          (reasonFor s) msg, ?_, rfl, rfl, ?_⟩
        · have hrw := runSteps_first_fail now ms outcome [] s post
            (dbInitStatus ms (passInitStatus ms st)) msg (by simp) hfail
          rw [List.nil_append] at hrw
          simp [reconcilePass,
            runSteps_all_ok now ms outcome appReconcileSteps (passInitStatus ms st) happ,
            hdb, hrw, ← happ2]
        · obtain ⟨d, hd, h1, h2, h3, h4⟩ := mem_setCondition_self now
            (dbInitStatus ms (passInitStatus ms st)).conditions
            ⟨"Reconciled", "False", ms.generation, 0, reasonFor s, msg⟩
          exact ⟨d, hd, h1, h2, h3, h4⟩
      | cons s' c'' =>
        have hs : s' = s := by
          have := congrArg (fun l => l.head?) hpost
          simpa using this.symm
        subst hs
        have happ3 : appReconcileSteps = pre ++ s' :: c'' := happ2
        refine ⟨UpdateError now ms (passInitStatus ms st) (reasonFor s') msg,
          ?_, rfl, rfl, ?_⟩
        · simp [reconcilePass, happ3,
            runSteps_first_fail now ms outcome pre s' c''
              (passInitStatus ms st) msg hok hfail]
        · obtain ⟨d, hd, h1, h2, h3, h4⟩ := mem_setCondition_self now
            (passInitStatus ms st).conditions
            ⟨"Reconciled", "False", ms.generation, 0, reasonFor s', msg⟩
          exact ⟨d, hd, h1, h2, h3, h4⟩
  · intro hall
    have happ : ∀ t ∈ appReconcileSteps, outcome t = none := fun t ht =>
      hall t (List.mem_append_left _ ht)
    have hdb : ∀ t ∈ (databaseReconcileSteps ms).map dbStepToReconcileStep,
        outcome t = none := fun t ht => hall t (List.mem_append_right _ ht)
    refine ⟨UpdateReconciled now ms
      (statusSync now ms obs (dbInitStatus ms (passInitStatus ms st))), ?_, rfl, ?_⟩
    · simp [reconcilePass, reconcileSteps,
        runSteps_all_ok now ms outcome appReconcileSteps (passInitStatus ms st) happ,
        runSteps_all_ok now ms outcome
          ((databaseReconcileSteps ms).map dbStepToReconcileStep)
          (dbInitStatus ms (passInitStatus ms st)) hdb]
    · obtain ⟨d, hd, h1, h2, h3, _⟩ := mem_setCondition_self now
        (statusSync now ms obs
          (dbInitStatus ms (passInitStatus ms st))).conditions
        ⟨"Reconciled", "True", ms.generation, 0, "ReconcileSuccess",
          "Successfully reconciled"⟩
      exact ⟨d, hd, h1, h2, h3⟩

/-- The step outcomes of the C8 witness: the StatefulSet step fails. -/
def outcomeW (t : ReconcileStep) : Option String :=
  if t = ReconcileStep.statefulSet then some "boom" else none

/-- The (empty) observations of the C8 witness. -/
def obsW : Observed := ⟨GetResult.notFound, [], GetResult.notFound, GetResult.notFound, []⟩

/-- Witness for C8 at a concrete input: with the StatefulSet step failing,
the pass stops after it with a Failed status carrying the message. -/
theorem C8_error_short_circuit_witness :
    reconcileSteps msW4 =
      [ReconcileStep.service] ++ ReconcileStep.statefulSet :: [ReconcileStep.autoscaler]
    ∧ ∃ stErr, reconcilePass 0 msW4 outcomeW obsW stW4 =
        (stErr, [ReconcileStep.service] ++ [ReconcileStep.statefulSet], false)
        ∧ stErr.phase = "Failed" ∧ stErr.lastError = "boom" := by
  refine ⟨rfl, ?_⟩
  obtain ⟨stErr, heq, hph, hle, _⟩ :=
    (C8_error_short_circuit 0 msW4 outcomeW obsW stW4).1
      [ReconcileStep.service] ReconcileStep.statefulSet [ReconcileStep.autoscaler]
      "boom" rfl (by decide) rfl
  exact ⟨stErr, heq, hph, hle⟩

end MusicOp
